import Mathlib

set_option maxRecDepth 8000

namespace Aura

/-! Shallow embedding of the AURA backend core (src/backend/services_v2.py and
src/backend/github_services_v2.py).  Python runtime values are modelled by
`PyVal`, Python exceptions by `PyExc`; code that can raise is embedded in the
`Except PyExc` monad.  External collaborators (the completion provider, the
Supabase store, the GitHub transport, the PDF engine) are passed in as
parameters, matching the spec's component boundaries. -/

/-- Python exceptions that the embedded code can raise. -/
inductive PyExc where
  | unboundLocalError (name : String)
  | attributeError (msg : String)
  | typeError (msg : String)
  | keyError (k : String)
  | valueError (msg : String)
deriving DecidableEq

/-- Python runtime values as they occur in this code base: `None`, booleans,
integers, floats (kept as their JSON lexeme; no floating-point arithmetic is
performed anywhere in the embedded code), strings, lists and dicts.  Dicts are
insertion-ordered association lists, as in Python 3.7+. -/
inductive PyVal where
  | vnone
  | vbool (b : Bool)
  | vint (n : Int)
  | vfloat (lexeme : String)
  | vstr (s : String)
  | vlist (xs : List PyVal)
  | vdict (entries : List (String × PyVal))

/-- Ordered-dict lookup: first (and only) binding of a key wins. -/
def pyLookup : List (String × PyVal) → String → Option PyVal
  | [], _ => Option.none
  | (k, v) :: rest, key => if k = key then some v else pyLookup rest key

/-- Python `d.get(key, dflt)` on a dict known to be a dict. -/
def pyLookupD (d : List (String × PyVal)) (key : String) (dflt : PyVal) : PyVal :=
  (pyLookup d key).getD dflt

/-- Python `d[key] = v` for a dict: update in place if the key exists
(keeping its position), otherwise append at the end. -/
def dictInsert : List (String × PyVal) → String → PyVal → List (String × PyVal)
  | [], key, v => [(key, v)]
  | (k, w) :: rest, key, v =>
      if k = key then (k, v) :: rest else (k, w) :: dictInsert rest key v

/-- Characters of a float lexeme before any exponent marker. -/
def mantissaChars (s : String) : List Char :=
  s.toList.takeWhile (fun c => c ≠ 'e' && c ≠ 'E')

/-- Whether a float lexeme denotes zero (every mantissa digit is 0). -/
def floatIsZero (s : String) : Bool :=
  (mantissaChars s).all (fun c => !c.isDigit || c = '0')

/-- Python truthiness (`bool(v)`): `None`, `False`, `0`, `0.0`, `""`, `[]`
and `\x7b\x7d` are falsy, everything else truthy. -/
def truthy : PyVal → Bool
  | .vnone => false
  | .vbool b => b
  | .vint n => n != 0
  | .vfloat lx => ! floatIsZero lx
  | .vstr s => s != ""
  | .vlist xs => ! xs.isEmpty
  | .vdict d => ! d.isEmpty

/-- Python `repr` of a string: quoted, with backslash, newline, carriage
return and tab escaped; double quotes are used when the text contains a
single quote but no double quote.  (Further escaping of non-printable or
non-ASCII characters is not modelled; no claim depends on it.) -/
def reprEscape (c : Char) : String :=
  if c = '\\' then "\\\\"
  else if c = '\n' then "\\n"
  else if c = '\r' then "\\r"
  else if c = '\t' then "\\t"
  else String.mk [c]

def reprQuote (s : String) : String :=
  let body := String.join (s.toList.map reprEscape)
  if s.toList.contains '\x27' && !(s.toList.contains '"') then
    "\"" ++ body ++ "\""
  else
    "\x27" ++ body ++ "\x27"

/-- Python `repr(v)`. -/
def pyRepr : PyVal → String
  | .vnone => "None"
  | .vbool b => if b then "True" else "False"
  | .vint n => toString n
  | .vfloat lx => if floatIsZero lx then "0.0" else lx
  | .vstr s => reprQuote s
  | .vlist xs =>
      "[" ++ String.intercalate ", " (xs.attach.map (fun x => pyRepr x.1)) ++ "]"
  | .vdict d =>
      "\x7b" ++
        String.intercalate ", "
          (d.attach.map (fun kv => reprQuote kv.1.1 ++ ": " ++ pyRepr kv.1.2)) ++
      "\x7d"
decreasing_by
  · have h := List.sizeOf_lt_of_mem x.2
    simp only [PyVal.vlist.sizeOf_spec]
    omega
  · obtain ⟨⟨k, v⟩, hm⟩ := kv
    have h := List.sizeOf_lt_of_mem hm
    simp only [Prod.mk.sizeOf_spec] at h
    simp only [PyVal.vdict.sizeOf_spec]
    omega

/-- Python `str(v)` (equals `repr(v)` except on strings; spelled out on the
scalar constructors, where it agrees with `pyRepr` definitionally). -/
def pyStr : PyVal → String
  | .vnone => "None"
  | .vbool b => if b then "True" else "False"
  | .vint n => toString n
  | .vfloat lx => if floatIsZero lx then "0.0" else lx
  | .vstr s => s
  | v => pyRepr v

/-- Characters Python strips by default and that `\s` matches (ASCII part). -/
def isPySpace (c : Char) : Bool :=
  c = ' ' || c = '\t' || c = '\n' || c = '\r' || c = '\x0b' || c = '\x0c'

/-- Python `str.strip()` with no argument. -/
def pyStrip (s : String) : String :=
  String.mk (((s.toList.dropWhile isPySpace).reverse.dropWhile isPySpace).reverse)

/-- Python `v.get(key)` — `AttributeError` unless `v` is a dict; missing key gives
`None`, as in Python. -/
def pyGet (v : PyVal) (key : String) : Except PyExc PyVal :=
  match v with
  | .vdict d => .ok (pyLookupD d key .vnone)
  | _ => .error (.attributeError "get")

/-- Python `v.get(key, dflt)` — `AttributeError` unless `v` is a dict. -/
def pyGetD (v : PyVal) (key : String) (dflt : PyVal) : Except PyExc PyVal :=
  match v with
  | .vdict d => .ok (pyLookupD d key dflt)
  | _ => .error (.attributeError "get")

/-- Python `v.items()` — `AttributeError` unless `v` is a dict. -/
def pyItems (v : PyVal) : Except PyExc (List (String × PyVal)) :=
  match v with
  | .vdict d => .ok d
  | _ => .error (.attributeError "items")

/-- Python `v[key] = x` — `TypeError` unless `v` is a dict. -/
def pySetItem (v : PyVal) (key : String) (x : PyVal) : Except PyExc PyVal :=
  match v with
  | .vdict d => .ok (.vdict (dictInsert d key x))
  | _ => .error (.typeError "item assignment")

/-- Python `v + t` for a string literal `t` — `TypeError` unless `v` is a string. -/
def pyAddStr (v : PyVal) (t : String) : Except PyExc PyVal :=
  match v with
  | .vstr s => .ok (.vstr (s ++ t))
  | _ => .error (.typeError "can only concatenate str")

/-- Python `v[:500]` — `TypeError` unless `v` supports slicing (str or list here). -/
def pySlice500 (v : PyVal) : Except PyExc PyVal :=
  match v with
  | .vstr s => .ok (.vstr (String.mk (s.toList.take 500)))
  | .vlist xs => .ok (.vlist (xs.take 500))
  | _ => .error (.typeError "not subscriptable")

/-- Python `len(v)` — `TypeError` unless `v` is sized (str, list or dict here). -/
def pyLen (v : PyVal) : Except PyExc Nat :=
  match v with
  | .vstr s => .ok s.length
  | .vlist xs => .ok xs.length
  | .vdict d => .ok d.length
  | _ => .error (.typeError "has no len")

/-! JSON parsing, modelling Python `json.loads`.  The parser is fuel-indexed
(the fuel bounds call depth; the top-level wrapper supplies more than enough).
Floats are kept as their source lexeme in `PyVal.vfloat`; no claim inspects a
float value.  Error messages are simplified — only success/failure and the
resulting value matter to the embedded code. -/

def isJsonWs (c : Char) : Bool :=
  c = ' ' || c = '\t' || c = '\n' || c = '\r'

def skipWs (cs : List Char) : List Char := cs.dropWhile isJsonWs

def charsStart : List Char → List Char → Bool
  | [], _ => true
  | _ :: _, [] => false
  | p :: ps, c :: cs => p = c && charsStart ps cs

def hexDigitVal (c : Char) : Option Nat :=
  if c.isDigit then some (c.toNat - 48)
  else if 'a' ≤ c && c ≤ 'f' then some (c.toNat - 87)
  else if 'A' ≤ c && c ≤ 'F' then some (c.toNat - 55)
  else Option.none

def escChar (c : Char) : Option Char :=
  if c = '"' then some '"'
  else if c = '\\' then some '\\'
  else if c = '/' then some '/'
  else if c = 'b' then some '\x08'
  else if c = 'f' then some '\x0c'
  else if c = 'n' then some '\n'
  else if c = 'r' then some '\r'
  else if c = 't' then some '\t'
  else Option.none

/-- Parse the body of a JSON string after the opening quote; returns the
decoded characters and the remaining input.  Surrogate-pair joining is not
modelled (no input in any claim contains one). -/
def parseStrBody : Nat → List Char → Except String (List Char × List Char)
  | 0, _ => .error "model fuel exhausted"
  | _ + 1, [] => .error "Unterminated string"
  | fuel + 1, c :: cs =>
    if c = '"' then .ok ([], cs)
    else if c = '\\' then
      match cs with
      | [] => .error "Unterminated string"
      | e :: cs2 =>
        if e = 'u' then
          match cs2 with
          | h1 :: h2 :: h3 :: h4 :: cs3 =>
            match hexDigitVal h1, hexDigitVal h2, hexDigitVal h3, hexDigitVal h4 with
            | some a, some b, some c2, some d =>
              match parseStrBody fuel cs3 with
              | .ok (acc, rest) =>
                  .ok (Char.ofNat (4096 * a + 256 * b + 16 * c2 + d) :: acc, rest)
              | .error err => .error err
            | _, _, _, _ => .error "Invalid unicode escape"
          | _ => .error "Invalid unicode escape"
        else
          match escChar e with
          | some ec =>
            match parseStrBody fuel cs2 with
            | .ok (acc, rest) => .ok (ec :: acc, rest)
            | .error err => .error err
          | Option.none => .error "Invalid escape"
    else if c.toNat < 32 then .error "Invalid control character"
    else
      match parseStrBody fuel cs with
      | .ok (acc, rest) => .ok (c :: acc, rest)
      | .error err => .error err

/-- Parse a JSON number.  Pure integers become `vint`; anything with a
fraction or exponent becomes `vfloat` carrying its lexeme. -/
def parseNumber (cs : List Char) : Except String (PyVal × List Char) :=
  let (sign, cs1) :=
    match cs with
    | '-' :: rest => (['-'], rest)
    | _ => (([] : List Char), cs)
  let ds := cs1.takeWhile Char.isDigit
  let cs2 := cs1.dropWhile Char.isDigit
  if ds.isEmpty then .error "Expecting value"
  else if ds.length > 1 && ds.head? = some '0' then .error "Expecting value"
  else
    let (fracChars, cs3) :=
      match cs2 with
      | '.' :: cs2a =>
        let fs := cs2a.takeWhile Char.isDigit
        if fs.isEmpty then (([] : List Char), cs2)
        else ('.' :: fs, cs2a.dropWhile Char.isDigit)
      | _ => (([] : List Char), cs2)
    let (expChars, cs4) :=
      match cs3 with
      | e :: cs3a =>
        if e = 'e' || e = 'E' then
          let (sgn, cs3b) :=
            match cs3a with
            | s :: cs3c => if s = '+' || s = '-' then ([s], cs3c) else (([] : List Char), cs3a)
            | [] => (([] : List Char), cs3a)
          let es := cs3b.takeWhile Char.isDigit
          if es.isEmpty then (([] : List Char), cs3)
          else (e :: (sgn ++ es), cs3b.dropWhile Char.isDigit)
        else (([] : List Char), cs3)
      | [] => (([] : List Char), cs3)
    if fracChars.isEmpty && expChars.isEmpty then
      let natv : Nat := ds.foldl (fun acc c => acc * 10 + (c.toNat - 48)) 0
      .ok (.vint (if sign.isEmpty then (natv : Int) else -(natv : Int)), cs2)
    else
      .ok (.vfloat (String.mk (sign ++ ds ++ fracChars ++ expChars)), cs4)

mutual

def parseVal : Nat → List Char → Except String (PyVal × List Char)
  | 0, _ => .error "model fuel exhausted"
  | fuel + 1, cs0 =>
    let cs := skipWs cs0
    if charsStart ['n', 'u', 'l', 'l'] cs then .ok (.vnone, cs.drop 4)
    else if charsStart ['t', 'r', 'u', 'e'] cs then .ok (.vbool true, cs.drop 4)
    else if charsStart ['f', 'a', 'l', 's', 'e'] cs then .ok (.vbool false, cs.drop 5)
    else
      match cs with
      | [] => .error "Expecting value"
      | c :: rest =>
        if c = '"' then
          match parseStrBody (rest.length + 1) rest with
          | .ok (acc, rem) => .ok (.vstr (String.mk acc), rem)
          | .error e => .error e
        else if c = '[' then
          match skipWs rest with
          | ']' :: rem => .ok (.vlist [], rem)
          | cs2 =>
            match parseArrayItems fuel cs2 with
            | .ok (xs, rem) => .ok (.vlist xs, rem)
            | .error e => .error e
        else if c = '\x7b' then
          match skipWs rest with
          | '\x7d' :: rem => .ok (.vdict [], rem)
          | cs2 =>
            match parseObjItems fuel [] cs2 with
            | .ok (d, rem) => .ok (.vdict d, rem)
            | .error e => .error e
        else if c = '-' || c.isDigit then parseNumber cs
        else .error "Expecting value"

def parseArrayItems : Nat → List Char → Except String (List PyVal × List Char)
  | 0, _ => .error "model fuel exhausted"
  | fuel + 1, cs =>
    match parseVal fuel cs with
    | .error e => .error e
    | .ok (v, cs2) =>
      match skipWs cs2 with
      | ',' :: cs3 =>
        match parseArrayItems fuel cs3 with
        | .ok (xs, rem) => .ok (v :: xs, rem)
        | .error e => .error e
      | ']' :: cs3 => .ok ([v], cs3)
      | _ => .error "Expecting delimiter"

def parseObjItems : Nat → List (String × PyVal) → List Char → Except String (List (String × PyVal) × List Char)
  | 0, _, _ => .error "model fuel exhausted"
  | fuel + 1, acc, cs =>
    match skipWs cs with
    | '"' :: rest =>
      match parseStrBody (rest.length + 1) rest with
      | .error e => .error e
      | .ok (kcs, cs2) =>
        match skipWs cs2 with
        | ':' :: cs3 =>
          match parseVal fuel cs3 with
          | .error e => .error e
          | .ok (v, cs4) =>
            match skipWs cs4 with
            | ',' :: cs5 => parseObjItems fuel (dictInsert acc (String.mk kcs) v) cs5
            | '\x7d' :: cs5 => .ok (dictInsert acc (String.mk kcs) v, cs5)
            | _ => .error "Expecting delimiter"
        | _ => .error "Expecting colon delimiter"
    | _ => .error "Expecting property name"

end

/-- Embedding of Python `json.loads` (raising = `Except.error`). -/
def json_loads (s : String) : Except String PyVal :=
  match parseVal (2 * s.length + 8) s.toList with
  | .error e => .error e
  | .ok (v, rest) => if (skipWs rest).isEmpty then .ok v else .error "Extra data"

/-! Embedding of Python `json.dumps(v, indent=2)` with its defaults
(`ensure_ascii=True`, separators `(",", ": ")` when an indent is given). -/

def toHexDigit (n : Nat) : Char :=
  if n < 10 then Char.ofNat (48 + n) else Char.ofNat (87 + (n - 10))

def toHex4 (n : Nat) : String :=
  String.mk [toHexDigit (n / 4096 % 16), toHexDigit (n / 256 % 16),
             toHexDigit (n / 16 % 16), toHexDigit (n % 16)]

def jsonEscapeChar (c : Char) : String :=
  if c = '"' then "\\\""
  else if c = '\\' then "\\\\"
  else if c = '\n' then "\\n"
  else if c = '\r' then "\\r"
  else if c = '\t' then "\\t"
  else if c = '\x08' then "\\b"
  else if c = '\x0c' then "\\f"
  else if c.toNat < 32 then "\\u" ++ toHex4 c.toNat
  else if c.toNat < 127 then String.mk [c]
  else if c.toNat < 65536 then "\\u" ++ toHex4 c.toNat
  else
    "\\u" ++ toHex4 (55296 + (c.toNat - 65536) / 1024) ++
    "\\u" ++ toHex4 (56320 + (c.toNat - 65536) % 1024)

def jsonQuote (s : String) : String :=
  "\"" ++ String.join (s.toList.map jsonEscapeChar) ++ "\""

def spaces (n : Nat) : String := String.mk (List.replicate n ' ')

def json_dumps2 : Nat → PyVal → String
  | _, .vnone => "null"
  | _, .vbool b => if b then "true" else "false"
  | _, .vint n => toString n
  | _, .vfloat lx => lx
  | _, .vstr s => jsonQuote s
  | _, .vlist [] => "[]"
  | ind, .vlist (x :: xs) =>
      "[\n" ++
        String.intercalate ",\n"
          (((x :: xs).attach).map (fun y => spaces (ind + 2) ++ json_dumps2 (ind + 2) y.1)) ++
      "\n" ++ spaces ind ++ "]"
  | _, .vdict [] => "\x7b\x7d"
  | ind, .vdict (e :: es) =>
      "\x7b\n" ++
        String.intercalate ",\n"
          (((e :: es).attach).map
            (fun kv => spaces (ind + 2) ++ jsonQuote kv.1.1 ++ ": " ++ json_dumps2 (ind + 2) kv.1.2)) ++
      "\n" ++ spaces ind ++ "\x7d"
termination_by _ v => sizeOf v
decreasing_by
  · have h := List.sizeOf_lt_of_mem y.2
    simp only [PyVal.vlist.sizeOf_spec]
    omega
  · obtain ⟨⟨k, v⟩, hm⟩ := kv
    have h := List.sizeOf_lt_of_mem hm
    simp only [Prod.mk.sizeOf_spec] at h
    simp only [PyVal.vdict.sizeOf_spec]
    omega

/-- Python `json.dumps(v, indent=2)` as used at services_v2.py lines 216-217. -/
def json_dumps_indent2 (v : PyVal) : String := json_dumps2 0 v

/-! The cleanup phase of `get_structured_ai_response`
(services_v2.py lines 127-141), one scanner per substitution, each with
Python `re.sub` semantics: scan left to right, replace non-overlapping
matches, resume after each match, never rescan replacement text.
Fuel counts scanner steps; each step consumes at least one character, so
`length + 1` fuel always suffices. -/

def btick : Char := Char.ofNat 96

def atLineEnd (cs : List Char) : Bool :=
  match cs with
  | [] => true
  | c :: _ => c = '\n'

/-- Line 130: `re.sub(r"^BTBTBT(json)?|BTBTBT$", "", s, flags=re.MULTILINE)`
(BT = a backtick).  The flag tracks whether the scan position is at a line
start (string start or just after a newline in the original text). -/
def fence_go : Nat → Bool → List Char → List Char
  | 0, _, cs => cs
  | _ + 1, _, [] => []
  | fuel + 1, atStart, c :: rest =>
    if atStart && charsStart [btick, btick, btick, 'j', 's', 'o', 'n'] (c :: rest) then
      fence_go fuel false ((c :: rest).drop 7)
    else if atStart && charsStart [btick, btick, btick] (c :: rest) then
      fence_go fuel false ((c :: rest).drop 3)
    else if charsStart [btick, btick, btick] (c :: rest) && atLineEnd ((c :: rest).drop 3) then
      fence_go fuel false ((c :: rest).drop 3)
    else
      c :: fence_go fuel (c = '\n') rest

def fence_sub (s : String) : String :=
  String.mk (fence_go (s.length + 1) true s.toList)

/-- Line 132: `re.sub(r"(?m)^\s*(//|#).*$", "", s)`.  At a line start, `\s*`
greedily skips whitespace (newlines included); the match succeeds exactly
when the first non-whitespace text there starts with `//` or `#`, and then
consumes up to (but not including) the next newline. -/
def comment_go : Nat → Bool → List Char → List Char
  | 0, _, cs => cs
  | _ + 1, _, [] => []
  | fuel + 1, atStart, c :: rest =>
    let after := (c :: rest).dropWhile isPySpace
    if atStart && (charsStart ['/', '/'] after || charsStart ['#'] after) then
      comment_go fuel false (after.dropWhile (fun c2 => c2 ≠ '\n'))
    else
      c :: comment_go fuel (c = '\n') rest

def comment_sub (s : String) : String :=
  String.mk (comment_go (s.length + 1) true s.toList)

/-- Line 134: `re.sub(r'"\x7d\s*"', '"\x7d, "', s)`. -/
def comma1_go : Nat → List Char → List Char
  | 0, cs => cs
  | _ + 1, [] => []
  | fuel + 1, c :: rest =>
    match c, rest with
    | '"', '\x7d' :: rest2 =>
      (match rest2.dropWhile isPySpace with
       | '"' :: rest3 => '"' :: '\x7d' :: ',' :: ' ' :: '"' :: comma1_go fuel rest3
       | _ => c :: comma1_go fuel rest)
    | _, _ => c :: comma1_go fuel rest

def comma1_sub (s : String) : String :=
  String.mk (comma1_go (s.length + 1) s.toList)

/-- Line 135: `s.replace('\x7d"', '\x7d,"')`. -/
def bq_go : Nat → List Char → List Char
  | 0, cs => cs
  | _ + 1, [] => []
  | fuel + 1, c :: rest =>
    match c, rest with
    | '\x7d', '"' :: rest2 => '\x7d' :: ',' :: '"' :: bq_go fuel rest2
    | _, _ => c :: bq_go fuel rest

def bq_sub (s : String) : String :=
  String.mk (bq_go (s.length + 1) s.toList)

def headIsColon (cs : List Char) : Bool :=
  match cs with
  | ':' :: _ => true
  | _ => false

/-- Line 137: `re.sub(r'"\s*"(?!:)', '", "', s)` — a quote, optional
whitespace, a quote not followed by a colon. -/
def comma2_go : Nat → List Char → List Char
  | 0, cs => cs
  | _ + 1, [] => []
  | fuel + 1, c :: rest =>
    if c = '"' then
      match rest.dropWhile isPySpace with
      | '"' :: rest3 =>
        if headIsColon rest3 then c :: comma2_go fuel rest
        else '"' :: ',' :: ' ' :: '"' :: comma2_go fuel rest3
      | _ => c :: comma2_go fuel rest
    else c :: comma2_go fuel rest

def comma2_sub (s : String) : String :=
  String.mk (comma2_go (s.length + 1) s.toList)

/-- Line 139: `s.replace("*", "").replace("**", "")` — the first replace
removes every asterisk, making the second a no-op. -/
def remove_stars (s : String) : String :=
  String.mk (s.toList.filter (fun c => c ≠ '*'))

/-- Suffix of a character list strictly after its last newline (the whole
list when it has none). -/
def nlTail (l : List Char) : List Char :=
  (l.reverse.takeWhile (fun c => c ≠ '\n')).reverse

/-- Line 141: `re.sub(r'\n\s*\n', '\n', s)`.  At a newline, the greedy `\s*`
backtracks so the match ends at the last newline of the whitespace run; when
the run holds no second newline there is no match. -/
def bc_go : Nat → List Char → List Char
  | 0, cs => cs
  | _ + 1, [] => []
  | fuel + 1, c :: rest =>
    if c = '\n' then
      let run := rest.takeWhile isPySpace
      if run.contains '\n' then
        '\n' :: bc_go fuel (nlTail run ++ rest.dropWhile isPySpace)
      else
        c :: bc_go fuel rest
    else c :: bc_go fuel rest

def blank_collapse (s : String) : String :=
  String.mk (bc_go (s.length + 1) s.toList)

/-- The whole cleanup phase of `get_structured_ai_response`
(services_v2.py lines 127-141), applied to `response.strip()`. -/
def cleanup_phase (response : String) : String :=
  blank_collapse (remove_stars (comma2_sub (bq_sub (comma1_sub
    (comment_sub (fence_sub (pyStrip response)))))))

/-- Line 148: `re.search(r'(\{.*\})', cleaned, re.DOTALL)` — with a greedy
dot-matches-all `.*`, this spans from the first opening brace to the last
closing brace at or after it, when such a pair exists. -/
def brace_span (s : String) : Option String :=
  let t := s.toList.dropWhile (fun c => c ≠ '\x7b')
  let u := (t.reverse.dropWhile (fun c => c ≠ '\x7d')).reverse
  if 2 ≤ u.length then some (String.mk u) else Option.none

/-- The cleanup-and-parse stage of `get_structured_ai_response`
(services_v2.py lines 127-157) as a function of the provider response text:
clean, try a direct parse, fall back to the first-to-last brace span, and on
total failure return the error record carrying the original raw text.  The
surrounding function never raises out of this stage. -/
def extract_json (response : String) : PyVal :=
  let cleaned := cleanup_phase response
  match json_loads cleaned with
  | .ok v => v
  | .error e1 =>
    match brace_span cleaned with
    | some fixed =>
      match json_loads fixed with
      | .ok v => v
      | .error e2 => .vdict [("error", .vstr e2), ("raw_response", .vstr response)]
    | Option.none => .vdict [("error", .vstr e1), ("raw_response", .vstr response)]

/-! The OpenRouter client chain (services_v2.py lines 71-115). -/

/-- Reading a Python local variable: `Option.none` for the binding means the
local is not bound at the read site, and the read raises
`UnboundLocalError`, as in CPython. -/
def readLocal (bound : Option α) (name : String) : Except PyExc α :=
  match bound with
  | some v => .ok v
  | Option.none => .error (.unboundLocalError name)

structure OpenAIClient where
  base_url : String
  api_key : String

def pyExcMsg : PyExc → String
  | .unboundLocalError n => "local variable " ++ n ++ " referenced before assignment"
  | .attributeError m => m
  | .typeError m => m
  | .keyError k => k
  | .valueError m => m

/-- get_openrouter_client (lines 71-96).  `g` is the `_openrouter_client`
global and `env_key` is `os.getenv("OPENROUTER_API_KEY")`.  The debug block
at lines 74-78 reads the local `openrouter_api_key`, which is assigned only
at line 82; a function-local read before assignment raises
`UnboundLocalError` in Python, before the cache check at line 79 runs.  The
remaining lines are translated as written even though they are unreachable.
Returns (function result, new value of the global). -/
def get_openrouter_client (g : Option OpenAIClient) (env_key : Option String) :
    Except PyExc (Option OpenAIClient × Option OpenAIClient) := do
  let openrouter_api_key_at_line_74 : Option (Option String) := Option.none
  let _ ← readLocal openrouter_api_key_at_line_74 "openrouter_api_key"
  if g.isSome then return (g, g)
  match env_key with
  | Option.none => return (Option.none, Option.none)
  | some k =>
      let c := OpenAIClient.mk "https://openrouter.ai/api/v1" k
      return (some c, some c)

/-- get_ai_response (lines 101-115).  `complete` models the external
completion call `client.chat.completions.create(...)` followed by
`.choices[0].message.content`.  The `get_openrouter_client()` call at line
103 sits outside the try/except, so whatever it raises propagates to the
caller; only the completion call itself is guarded. -/
def get_ai_response (g : Option OpenAIClient) (env_key : Option String)
    (messages : List (String × String))
    (complete : OpenAIClient → List (String × String) → Except PyExc String) :
    Except PyExc (String × Option OpenAIClient) := do
  let (client, g1) ← get_openrouter_client g env_key
  match client with
  | Option.none =>
      return ("AI service not configured. Please set OPENROUTER_API_KEY environment variable.",
              g1)
  | some c =>
      match complete c messages with
      | .ok content => return (content, g1)
      | .error e => return ("I encountered an error while calling AI: " ++ pyExcMsg e, g1)

/-! The conversation core (services_v2.py lines 164-317). -/

/-- auto_research_project (lines 164-221).  The prompt build and the single
consolidated completion call (lines 171-205) belong to the external
provider; `research_extraction` is the record `get_structured_ai_response`
hands back for that call.  This embeds everything from line 207 on: the
error branch re-wraps the raw response under the `error` key (evaluating
the `raw_response[:500]` slice used by the log line first, since Python
evaluates print arguments), and the success branch serialises the two
nested sections with `json.dumps(..., indent=2)`. -/
def auto_research_project (research_extraction : PyVal) : Except PyExc PyVal := do
  let errv ← pyGet research_extraction "error"
  if truthy errv then do
    let raw_for_log ← pyGetD research_extraction "raw_response" (.vstr "")
    let _ ← pySlice500 raw_for_log
    let rawv ← pyGet research_extraction "raw_response"
    return .vdict [("error", rawv)]
  else do
    let intro ← pyGetD research_extraction "introduction" (.vstr "")
    let lit ← pyGetD research_extraction "literature_review" (.vstr "")
    let meth ← pyGetD research_extraction "methodology" (.vstr "")
    let sysr ← pyGetD research_extraction "system_requirements" (.vdict [])
    let feas ← pyGetD research_extraction "feasibility_analysis" (.vdict [])
    return .vdict
      [("introduction", intro),
       ("literature_review", lit),
       ("methodology", meth),
       ("system_requirements", .vstr (json_dumps_indent2 sysr)),
       ("feasibility_analysis", .vstr (json_dumps_indent2 feas))]

/-- The record handle_natural_conversation returns (lines 310-317), field
for dict key. -/
structure ConvOut where
  response : PyVal
  updated_memory : PyVal
  updated_fields : PyVal
  missing_info : PyVal
  auto_research_triggered : Bool
  research_results : PyVal

/-- Observable side effects of one turn: the `save_memory` calls made, in
order, and how many times `auto_research_project` was invoked. -/
structure ConvTrace where
  saves : List (String × PyVal)
  researchCalls : Nat

/-- handle_natural_conversation (lines 226-317).  The prompt build and the
extraction call at lines 232-273 belong to the external provider; `result`
is the record `get_structured_ai_response` returns for this turn, and
`research_extraction` is the record the provider would return for the
nested auto-research call, should it happen.  `current_memory` is the dict
the caller passes.  Everything from line 275 on is translated statement by
statement; dict operations on values the model controls can raise, and such
exceptions propagate, as in the source. -/
def handle_natural_conversation (result : PyVal) (research_extraction : PyVal)
    (session_id : String) (current_memory : List (String × PyVal)) :
    Except PyExc (ConvOut × ConvTrace) := do
  let errv ← pyGet result "error"
  if truthy errv then
    return (ConvOut.mk (.vstr "An error occurred during AI processing. Please try again.")
              (.vdict current_memory) (.vlist []) (.vlist []) false (.vdict []),
            ConvTrace.mk [] 0)
  else do
    let updated_memory ← pyGetD result "updated_memory" (.vdict current_memory)
    let updated_fields ← pyGetD result "updated_fields" (.vlist [])
    let ai_response ← pyGetD result "ai_response"
        (.vstr "I\x27m not sure what to say, can you rephrase?")
    let saves0 := if truthy updated_fields then [(session_id, updated_memory)] else []
    let items ← pyItems updated_memory
    let filled_fields := items.filter
        (fun kv => truthy kv.2 && decide (10 < (pyStrip (pyStr kv.2)).length))
    let flag ← pyGet updated_memory "auto_research_done"
    if decide (3 ≤ filled_fields.length) && !truthy flag then do
      let research ← auto_research_project research_extraction
      let rerr ← pyGet research "error"
      if !truthy rerr then do
        let um1 ← pySetItem updated_memory "auto_research_done" (.vbool true)
        let um2 ← pySetItem um1 "research_results" research
        let missing ← pyGetD result "missing_info" (.vlist [])
        return (ConvOut.mk ai_response um2 updated_fields missing true research,
                ConvTrace.mk (saves0 ++ [(session_id, um2)]) 1)
      else do
        let ai2 ← pyAddStr ai_response
            "\n\n(Auto-research encountered an issue, but you can continue.)"
        let missing ← pyGetD result "missing_info" (.vlist [])
        return (ConvOut.mk ai2 updated_memory updated_fields missing false research,
                ConvTrace.mk saves0 1)
    else do
      let missing ← pyGetD result "missing_info" (.vlist [])
      return (ConvOut.mk ai_response updated_memory updated_fields missing false (.vdict []),
              ConvTrace.mk saves0 0)

/-- Iterated conversation turns: each turn feeds the memory produced by the
previous one back in, as the HTTP caller does with `synopsis_memory`.
Returns the final memory and the total number of auto-research
invocations. -/
def run_turns (session_id : String) :
    List (String × PyVal) → List (PyVal × PyVal) →
    Except PyExc (List (String × PyVal) × Nat)
  | mem, [] => .ok (mem, 0)
  | mem, (result, research_extraction) :: rest => do
    let (out, tr) ← handle_natural_conversation result research_extraction session_id mem
    match out.updated_memory with
    | .vdict d => do
      let (m, n) ← run_turns session_id d rest
      return (m, tr.researchCalls + n)
    | _ => .error (.typeError "memory is not a dict")

/-! The memory store (services_v2.py lines 365-397). -/

/-- The Supabase table operations save_memory performs, as an external
collaborator: the `select("id").eq("session_id", sid).execute().data`
result, and the update/insert calls; `.error` models a raised exception. -/
structure SupabaseBackend where
  select_rows : String → Except PyExc PyVal
  update_row : String → PyVal → Except PyExc Unit
  insert_row : PyVal → Except PyExc Unit

/-- Backend operations attempted by one save_memory call, in order. -/
inductive DbOp where
  | selectOp (sid : String)
  | updateOp (sid : String) (data : PyVal)
  | insertOp (data : PyVal)

/-- save_memory (lines 378-397).  `client` is `get_supabase_client()`,
`cache` the `_local_memory_cache` global, `now` stands for
`datetime.now().isoformat()`.  Returns the new cache and the backend
operations attempted.  The function always returns normally: with no client
it writes the cache (line 381); with a client the whole body sits in
try/except whose except branch only prints (lines 396-397). -/
def save_memory (client : Option SupabaseBackend) (cache : List (String × PyVal))
    (session_id : String) (memory : PyVal) (idea : PyVal) (now : String) :
    List (String × PyVal) × List DbOp :=
  match client with
  | Option.none => (dictInsert cache session_id memory, [])
  | some b =>
    match pyGetD memory "title" (.vstr "") with
    | .error _ => (cache, [])
    | .ok title =>
      let project_idea := if truthy idea then idea else title
      let entries : List (String × PyVal) :=
        [("project_idea", project_idea), ("research_data", memory),
         ("updated_at", .vstr now)]
      let data_to_save : PyVal := .vdict entries
      match b.select_rows session_id with
      | .error _ => (cache, [.selectOp session_id])
      | .ok rows =>
        let existing_check : Except PyExc Bool :=
          if truthy rows then
            match pyLen rows with
            | .ok n => .ok (decide (0 < n))
            | .error e => .error e
          else .ok false
        match existing_check with
        | .error _ => (cache, [.selectOp session_id])
        | .ok true =>
          let _ := b.update_row session_id data_to_save
          (cache, [.selectOp session_id, .updateOp session_id data_to_save])
        | .ok false =>
          let data2 : PyVal := .vdict
            (dictInsert (dictInsert entries "session_id" (.vstr session_id))
              "created_at" (.vstr now))
          let _ := b.insert_row data2
          (cache, [.selectOp session_id, .insertOp data2])

/-! The repository search (github_services_v2.py lines 173-230). -/

/-- Python `item[key]` subscription: `KeyError` for a missing key, `TypeError` on a
non-dict. -/
def pyIndex (v : PyVal) (key : String) : Except PyExc PyVal :=
  match v with
  | .vdict d =>
    match pyLookup d key with
    | some x => .ok x
    | Option.none => .error (.keyError key)
  | _ => .error (.typeError "not subscriptable")

/-- Python `xs[:limit]` with an int limit (a negative limit drops from the
end). -/
def pySliceToInt (v : PyVal) (n : Int) : Except PyExc (List PyVal) :=
  match v with
  | .vlist xs =>
      .ok (if n < 0 then xs.take (xs.length - (-n).toNat) else xs.take n.toNat)
  | _ => .error (.typeError "not subscriptable")

/-- Search request parameters built at lines 194-199. -/
structure GhParams where
  q : String
  sort : String
  ord : String
  per_page : Int

def mk_search_params (query : String) (limit : Int) (sort_by : String) : GhParams :=
  GhParams.mk (query ++ " stars:>10") sort_by "desc" (min limit 30)

def github_error_msg : String :=
  "⚠️ **GitHub API Error**: Could not fetch repositories. Please try again later."

/-- The `for i, item in enumerate(items, 1)` loop at lines 215-224.  The
per-item formatting helpers and the detail fetch are injected: they render
strings (and call the network), and no claim depends on their content. -/
def format_loop (fetch_details : PyVal → PyVal) (quality_of : PyVal → PyVal)
    (fmtA : PyVal → PyVal → PyVal → Nat → Except PyExc String)
    (fmtB : PyVal → Nat → Except PyExc String) :
    Nat → List PyVal → Except PyExc (List String)
  | _, [] => .ok []
  | i, item :: rest => do
    let s ←
      if i ≤ 5 then do
        let name ← pyIndex item "full_name"
        let det := fetch_details name
        let qual := quality_of det
        fmtA item det qual i
      else fmtB item i
    let others ← format_loop fetch_details quality_of fmtA fmtB (i + 1) rest
    return s :: others

/-- search_github_repos (github_services_v2.py lines 173-230).  `transport`
models the `requests.get` + `raise_for_status` + `.json()` sequence; its
`.error` is a raised `requests.exceptions.RequestException`, the only
exception the surrounding try/except catches.  Returns the function result
(still `Except`: exceptions from the formatting body are not caught and
propagate) paired with the number of search-endpoint calls made. -/
def search_github_repos (query : String) (limit : Int) (sort_by : String)
    (transport : GhParams → Except PyExc PyVal)
    (fetch_details : PyVal → PyVal) (quality_of : PyVal → PyVal)
    (fmtA : PyVal → PyVal → PyVal → Nat → Except PyExc String)
    (fmtB : PyVal → Nat → Except PyExc String) :
    Except PyExc (List String) × Nat :=
  if !truthy (.vstr query) then (.ok [], 0)
  else
    match transport (mk_search_params query limit sort_by) with
    | .error _ => (.ok [github_error_msg], 1)
    | .ok data =>
      let body : Except PyExc (List String) := do
        let items0 ← pyGetD data "items" (.vlist [])
        let items ← pySliceToInt items0 limit
        format_loop fetch_details quality_of fmtA fmtB 1 items
      (body, 1)

/-! The document renderer (services_v2.py lines 403-557). -/

/-- A ReportLab flowable as appended to `story`: a paragraph with its style
name, a spacer, or a page break. -/
inductive Story where
  | para (text : String) (style : String)
  | spacer (w : Int) (h : Int)
  | pageBreak
deriving DecidableEq

/-- Replacement of each newline by an HTML line break (`.replace` at line 429). -/
def brReplace : List Char → List Char
  | [] => []
  | c :: rest =>
      if c = '\n' then '<' :: 'b' :: 'r' :: '/' :: '>' :: brReplace rest
      else c :: brReplace rest

/-- The nested `clean_text` helper (lines 426-429). -/
def clean_text (text : PyVal) : String :=
  if !truthy text then ""
  else String.mk (brReplace (pyStr text).toList)

def replaceUnderscores (s : String) : String :=
  String.mk (s.toList.map (fun c => if c = '_' then ' ' else c))

def titleGo : Bool → List Char → List Char
  | _, [] => []
  | prevAlpha, c :: rest =>
      (if c.isAlpha then (if prevAlpha then c.toLower else c.toUpper) else c) ::
        titleGo c.isAlpha rest

/-- Python `str.title()`: a letter after a non-letter is uppercased, any
other letter lowercased. -/
def pyTitleCase (s : String) : String := String.mk (titleGo false s.toList)

/-- Section 6 body (lines 497-513): parse a string payload as JSON, iterate
the categories, render list items as bullets; any exception in the try
falls back to one paragraph with `str(...)` of the raw value.  No partial
output can escape: the only raise points (`json.loads`, `.items()`) come
before the first append. -/
def sysreq_section (sys_req_raw : PyVal) : List Story :=
  let attempt : Except PyExc (List Story) := do
    let data ←
      match sys_req_raw with
      | .vstr s =>
          (match json_loads s with
           | .ok v => Except.ok v
           | .error m => Except.error (PyExc.valueError m))
      | v => Except.ok v
    let entries ← pyItems data
    Except.ok (entries.foldr (fun kv acc =>
      Story.spacer 1 10 ::
      Story.para ("<u><b>" ++ pyTitleCase (replaceUnderscores kv.1) ++ "</b></u>") "Heading3" ::
      ((match kv.2 with
        | .vlist items => items.map (fun it => Story.para ("• " ++ clean_text it) "Normal")
        | _ => []) ++ (Story.spacer 1 10 :: acc))) [])
  match attempt with
  | .ok l => l
  | .error _ => [Story.para (clean_text (.vstr (pyStr sys_req_raw))) "Normal"]

/-- Section 7 body (lines 518-532), analogous to section 6 but without the
underscore replacement or the list rendering. -/
def feas_section (feas_raw : PyVal) : List Story :=
  let attempt : Except PyExc (List Story) := do
    let data ←
      match feas_raw with
      | .vstr s =>
          (match json_loads s with
           | .ok v => Except.ok v
           | .error m => Except.error (PyExc.valueError m))
      | v => Except.ok v
    let entries ← pyItems data
    Except.ok (entries.foldr (fun kv acc =>
      Story.spacer 1 8 ::
      Story.para ("<u><b>" ++ pyTitleCase kv.1 ++ "</b></u>") "Heading3" ::
      Story.para (clean_text kv.2) "Normal" ::
      Story.spacer 1 8 :: acc) [])
  match attempt with
  | .ok l => l
  | .error _ => [Story.para (clean_text (.vstr (pyStr feas_raw))) "Normal"]

def toc_items : List String :=
  ["1. Introduction", "2. Literature Review", "3. Problem Statement",
   "4. Objectives and Scope", "5. Methodology", "6. System Requirements",
   "7. Feasibility Analysis", "8. Implementation Plan", "9. Expected Outcomes",
   "10. References"]

/-- The document content generate_comprehensive_synopsis builds (lines
403-557), as the ordered list of flowables appended to `story`.  `memory`
is the record `load_memory` returned for the session and `idea` the
optional idea argument; the output path, timestamped filename and
`doc.build` are I/O on the PDF collaborator, outside the embedding.  The
`references` join at line 551 raises `TypeError` when the list holds a
non-string, as in Python. -/
def synopsis_story (memory : List (String × PyVal)) (idea : PyVal) :
    Except PyExc (List Story) := do
  let research_results := pyLookupD memory "research_results" (.vdict [])
  let title := pyLookupD memory "title" (if truthy idea then idea else .vstr "Project Title")
  let intro_content ← pyGetD research_results "introduction"
      (pyLookupD memory "objective_scope"
        (.vstr "Project introduction will be detailed here."))
  let lit_review ← pyGetD research_results "literature_review"
      (.vstr "Comprehensive literature review of related work in the domain.")
  let methodology ← pyGetD research_results "methodology"
      (pyLookupD memory "process_description"
        (.vstr "Detailed methodology and technical approach."))
  let sys_req_raw ← pyGetD research_results "system_requirements" (.vdict [])
  let feas_raw ← pyGetD research_results "feasibility_analysis" (.vdict [])
  let refDefault ← pyGetD research_results "literature_review"
      (.vstr "References will be added based on research conducted.")
  let references_content := pyLookupD memory "references" refDefault
  let references_text ←
    match references_content with
    | .vlist xs =>
        if xs.all (fun x => match x with | .vstr _ => true | _ => false) then
          Except.ok (clean_text (.vstr (String.intercalate "\n" (xs.map pyStr))))
        else Except.error (PyExc.typeError "sequence item: expected str instance")
    | v => Except.ok (clean_text v)
  return (
    [Story.para ("<b>" ++ pyStr title ++ "</b>") "Title",
     Story.spacer 1 30,
     Story.para "<b>PROJECT SYNOPSIS</b>" "Heading1",
     Story.spacer 1 20,
     Story.para "<b>Submitted for the partial fulfillment of</b>" "Normal",
     Story.para "<b>BACHELOR OF TECHNOLOGY</b>" "Heading2",
     Story.spacer 1 30,
     Story.para "BRCM COLLEGE OF ENGINEERING & TECHNOLOGY" "Heading3",
     Story.para "BAHAL, BHIWANI - 127028" "Normal",
     Story.spacer 1 20,
     Story.para ("<b>Submitted by:</b> " ++
       clean_text (pyLookupD memory "group_details" (.vstr "Team Details"))) "Normal",
     Story.pageBreak,
     Story.para "<b>TABLE OF CONTENTS</b>" "Heading2",
     Story.spacer 1 12] ++
    toc_items.map (fun t => Story.para t "Normal") ++
    [Story.pageBreak,
     Story.para "<b>1. INTRODUCTION</b>" "Heading2",
     Story.para (clean_text intro_content) "Normal",
     Story.pageBreak,
     Story.para "<b>2. LITERATURE REVIEW</b>" "Heading2",
     Story.para (clean_text lit_review) "Normal",
     Story.pageBreak,
     Story.para "<b>3. PROBLEM STATEMENT</b>" "Heading2",
     Story.para (clean_text (pyLookupD memory "objective_scope"
       (.vstr "The problem statement will outline the key challenges addressed by this project."))) "Normal",
     Story.pageBreak,
     Story.para "<b>4. OBJECTIVES AND SCOPE</b>" "Heading2",
     Story.para (clean_text (pyLookupD memory "objective_scope"
       (.vstr "Project objectives and scope will be defined here."))) "Normal",
     Story.pageBreak,
     Story.para "<b>5. METHODOLOGY</b>" "Heading2",
     Story.para (clean_text methodology) "Normal",
     Story.pageBreak,
     Story.para "<b>6. SYSTEM REQUIREMENTS</b>" "Heading2"] ++
    sysreq_section sys_req_raw ++
    [Story.pageBreak,
     Story.para "<b>7. FEASIBILITY ANALYSIS</b>" "Heading2"] ++
    feas_section feas_raw ++
    [Story.pageBreak,
     Story.para "<b>8. IMPLEMENTATION PLAN</b>" "Heading2",
     Story.para (clean_text (pyLookupD memory "process_description"
       (.vstr "Detailed implementation plan with timeline and milestones."))) "Normal",
     Story.pageBreak,
     Story.para "<b>9. EXPECTED OUTCOMES</b>" "Heading2",
     Story.para (clean_text (pyLookupD memory "conclusion"
       (.vstr "Expected outcomes and impact of the project."))) "Normal",
     Story.pageBreak,
     Story.para "<b>10. REFERENCES</b>" "Heading2",
     Story.para references_text "Normal"])

/-! Claim-specific input data and predicates. -/

def c7_input_plain : String := "\x7b\"a\": 1\x7d"

def c7_input_fenced : String := "```json\n\x7b\"a\": 1\x7d\n```"

def c7_input_comment : String := "\x7b\"a\": 1\x7d // trailing comment"

/-- Total parse failure of a raw response: the direct parse of the cleaned
text fails and the brace-span fallback is absent or fails too — exactly the
condition under which lines 154-157 run. -/
def parse_attempts_fail (response : String) : Bool :=
  match json_loads (cleanup_phase response) with
  | .ok _ => false
  | .error _ =>
    match brace_span (cleanup_phase response) with
    | some fixed =>
      (match json_loads fixed with
       | .ok _ => false
       | .error _ => true)
    | Option.none => true

def c8_garbage : String := "hello world garbage"

def c10_star_input : String := "\x7b\"a\": \"x*y\"\x7d"

/-- The raw text `\x7b"a": "*x\\"\x7d "\x7d` — valid JSON whose single
string value is `*x"\x7d ` (asterisk, x, quote, closing brace, space). -/
def c10_comma_repair_input : String := "\x7b\"a\": \"*x\\\"\x7d \"\x7d"

def c2_err_result : List (String × PyVal) :=
  [("error", PyVal.vstr "Expecting value"), ("raw_response", PyVal.vstr "oops")]

def c6_err_record : PyVal :=
  PyVal.vdict [("error", PyVal.vstr "Expecting value"),
               ("raw_response", PyVal.vstr "garbage text")]

/-- Whether a value supports the `[:500]` slice the error branch's log line
applies to `raw_response`. -/
def sliceable : PyVal → Bool
  | .vstr _ => true
  | .vlist _ => true
  | _ => false

def c6_wit_err : List (String × PyVal) :=
  [("error", PyVal.vstr "Invalid control character"),
   ("raw_response", PyVal.vstr "bad model text")]

def c6_wit_ok : List (String × PyVal) :=
  [("introduction", PyVal.vstr "I"), ("methodology", PyVal.vstr "M")]

def c5_failing_backend : SupabaseBackend :=
  SupabaseBackend.mk
    (fun _ => Except.ok (PyVal.vlist []))
    (fun _ _ => Except.error (PyExc.valueError "APIError"))
    (fun _ => Except.error (PyExc.valueError "APIError"))

def c5_memory : PyVal := PyVal.vdict [("title", PyVal.vstr "Chess engine")]

/-- The flowables strictly between the first paragraph carrying the given
text and the next page break — the body a section renders under its
heading. -/
def section_body (story : List Story) (heading : String) : List Story :=
  ((story.dropWhile (fun st =>
      match st with
      | Story.para t _ => t ≠ heading
      | _ => true)).drop 1).takeWhile (fun st =>
      match st with
      | Story.pageBreak => false
      | _ => true)

/-- The exact flowable list the renderer produces for an empty session
memory with no idea argument and no research results. -/
def empty_memory_story : List Story :=
  [Story.para "<b>Project Title</b>" "Title",
   Story.spacer 1 30,
   Story.para "<b>PROJECT SYNOPSIS</b>" "Heading1",
   Story.spacer 1 20,
   Story.para "<b>Submitted for the partial fulfillment of</b>" "Normal",
   Story.para "<b>BACHELOR OF TECHNOLOGY</b>" "Heading2",
   Story.spacer 1 30,
   Story.para "BRCM COLLEGE OF ENGINEERING & TECHNOLOGY" "Heading3",
   Story.para "BAHAL, BHIWANI - 127028" "Normal",
   Story.spacer 1 20,
   Story.para "<b>Submitted by:</b> Team Details" "Normal",
   Story.pageBreak,
   Story.para "<b>TABLE OF CONTENTS</b>" "Heading2",
   Story.spacer 1 12,
   Story.para "1. Introduction" "Normal",
   Story.para "2. Literature Review" "Normal",
   Story.para "3. Problem Statement" "Normal",
   Story.para "4. Objectives and Scope" "Normal",
   Story.para "5. Methodology" "Normal",
   Story.para "6. System Requirements" "Normal",
   Story.para "7. Feasibility Analysis" "Normal",
   Story.para "8. Implementation Plan" "Normal",
   Story.para "9. Expected Outcomes" "Normal",
   Story.para "10. References" "Normal",
   Story.pageBreak,
   Story.para "<b>1. INTRODUCTION</b>" "Heading2",
   Story.para "Project introduction will be detailed here." "Normal",
   Story.pageBreak,
   Story.para "<b>2. LITERATURE REVIEW</b>" "Heading2",
   Story.para "Comprehensive literature review of related work in the domain." "Normal",
   Story.pageBreak,
   Story.para "<b>3. PROBLEM STATEMENT</b>" "Heading2",
   Story.para "The problem statement will outline the key challenges addressed by this project." "Normal",
   Story.pageBreak,
   Story.para "<b>4. OBJECTIVES AND SCOPE</b>" "Heading2",
   Story.para "Project objectives and scope will be defined here." "Normal",
   Story.pageBreak,
   Story.para "<b>5. METHODOLOGY</b>" "Heading2",
   Story.para "Detailed methodology and technical approach." "Normal",
   Story.pageBreak,
   Story.para "<b>6. SYSTEM REQUIREMENTS</b>" "Heading2",
   Story.pageBreak,
   Story.para "<b>7. FEASIBILITY ANALYSIS</b>" "Heading2",
   Story.pageBreak,
   Story.para "<b>8. IMPLEMENTATION PLAN</b>" "Heading2",
   Story.para "Detailed implementation plan with timeline and milestones." "Normal",
   Story.pageBreak,
   Story.para "<b>9. EXPECTED OUTCOMES</b>" "Heading2",
   Story.para "Expected outcomes and impact of the project." "Normal",
   Story.pageBreak,
   Story.para "<b>10. REFERENCES</b>" "Heading2",
   Story.para "References will be added based on research conducted." "Normal"]

def synopsis_headings : List String :=
  ["<b>1. INTRODUCTION</b>", "<b>2. LITERATURE REVIEW</b>", "<b>3. PROBLEM STATEMENT</b>",
   "<b>4. OBJECTIVES AND SCOPE</b>", "<b>5. METHODOLOGY</b>", "<b>6. SYSTEM REQUIREMENTS</b>",
   "<b>7. FEASIBILITY ANALYSIS</b>", "<b>8. IMPLEMENTATION PLAN</b>",
   "<b>9. EXPECTED OUTCOMES</b>", "<b>10. REFERENCES</b>"]

def empty_placeholders : List (String × String) :=
  [("<b>1. INTRODUCTION</b>", "Project introduction will be detailed here."),
   ("<b>2. LITERATURE REVIEW</b>",
     "Comprehensive literature review of related work in the domain."),
   ("<b>3. PROBLEM STATEMENT</b>",
     "The problem statement will outline the key challenges addressed by this project."),
   ("<b>4. OBJECTIVES AND SCOPE</b>", "Project objectives and scope will be defined here."),
   ("<b>5. METHODOLOGY</b>", "Detailed methodology and technical approach."),
   ("<b>8. IMPLEMENTATION PLAN</b>",
     "Detailed implementation plan with timeline and milestones."),
   ("<b>9. EXPECTED OUTCOMES</b>", "Expected outcomes and impact of the project."),
   ("<b>10. REFERENCES</b>", "References will be added based on research conducted.")]

/-- Length of line 295's `filled_fields` list over a given (post-merge)
memory dict. -/
def filled_count (du : List (String × PyVal)) : Nat :=
  (du.filter (fun kv => truthy kv.2 && decide (10 < (pyStrip (pyStr kv.2)).length))).length

/-- The record the auto-research trigger returns on success. -/
def research_success_record (rd : List (String × PyVal)) : PyVal :=
  PyVal.vdict
    [("introduction", pyLookupD rd "introduction" (PyVal.vstr "")),
     ("literature_review", pyLookupD rd "literature_review" (PyVal.vstr "")),
     ("methodology", pyLookupD rd "methodology" (PyVal.vstr "")),
     ("system_requirements",
       PyVal.vstr (json_dumps_indent2 (pyLookupD rd "system_requirements" (PyVal.vdict [])))),
     ("feasibility_analysis",
       PyVal.vstr (json_dumps_indent2 (pyLookupD rd "feasibility_analysis" (PyVal.vdict []))))]

/-- A turn whose extraction result cannot clear `auto_research_done`: it is
a dict and either reports an error, or omits `updated_memory`, or its
`updated_memory` is a dict carrying a truthy `auto_research_done`. -/
def turn_keeps_done (t : PyVal × PyVal) : Prop :=
  ∃ d : List (String × PyVal), t.1 = PyVal.vdict d ∧
    (truthy (pyLookupD d "error" PyVal.vnone) = true ∨
     pyLookup d "updated_memory" = Option.none ∨
     ∃ du, pyLookup d "updated_memory" = some (PyVal.vdict du) ∧
       truthy (pyLookupD du "auto_research_done" PyVal.vnone) = true)

def c3_prev_memory : List (String × PyVal) :=
  [("title", PyVal.vstr "A project on automated planning"),
   ("auto_research_done", PyVal.vbool true)]

def c3_model_result : List (String × PyVal) :=
  [("updated_memory", PyVal.vdict
     [("title", PyVal.vstr "A project on automated planning"),
      ("objective_scope", PyVal.vstr "Build and evaluate a planner"),
      ("process_description", PyVal.vstr "Iterative prototyping approach")]),
   ("updated_fields", PyVal.vlist [PyVal.vstr "objective_scope"]),
   ("ai_response", PyVal.vstr "Sounds good!")]

def c3_research_failure : List (String × PyVal) :=
  [("error", PyVal.vstr "Expecting value"), ("raw_response", PyVal.vstr "not json")]

def c3w_simple : List (String × PyVal) := [("ai_response", PyVal.vstr "Hi")]

def c3w_full : List (String × PyVal) :=
  [("updated_memory", PyVal.vdict
     [("title", PyVal.vstr "Adaptive traffic light control"),
      ("objective_scope", PyVal.vstr "Reduce congestion at junctions"),
      ("process_description", PyVal.vstr "Simulation plus reinforcement")]),
   ("updated_fields", PyVal.vlist [PyVal.vstr "title"]),
   ("ai_response", PyVal.vstr "Noted.")]

def c3w_research_ok : List (String × PyVal) :=
  [("introduction", PyVal.vstr "Traffic control background")]

def c3w_research_empty : List (String × PyVal) :=
  [("error", PyVal.vstr "Expecting value"), ("raw_response", PyVal.vstr "")]

def c3w_research_bad : List (String × PyVal) :=
  [("error", PyVal.vstr "Unterminated string"), ("raw_response", PyVal.vstr "partial model text")]

def c3w_done_memory : List (String × PyVal) :=
  [("title", PyVal.vstr "Adaptive traffic light control"),
   ("auto_research_done", PyVal.vbool true)]

def c3w_turns : List (PyVal × PyVal) :=
  [(PyVal.vdict [("error", PyVal.vstr "Expecting value"),
                 ("raw_response", PyVal.vstr "junk")], PyVal.vnone),
   (PyVal.vdict [("ai_response", PyVal.vstr "Continuing."),
                 ("updated_fields", PyVal.vlist [])], PyVal.vnone),
   (PyVal.vdict [("updated_memory", PyVal.vdict
      [("title", PyVal.vstr "Adaptive traffic light control"),
       ("objective_scope", PyVal.vstr "Reduce congestion at junctions"),
       ("process_description", PyVal.vstr "Simulation plus reinforcement"),
       ("auto_research_done", PyVal.vbool true)]),
     ("updated_fields", PyVal.vlist [PyVal.vstr "objective_scope"]),
     ("ai_response", PyVal.vstr "Updated.")], PyVal.vnone)]

/-! Helper lemmas. -/


@[simp] theorem bind_ok_eq {α β : Type} (a : α) (f : α → Except PyExc β) :
    (Bind.bind (Except.ok a) f : Except PyExc β) = f a := rfl

@[simp] theorem pure_eq_ok {α : Type} (a : α) :
    (pure a : Except PyExc α) = Except.ok a := rfl

@[simp] theorem bind_error_eq {α β : Type} (e : PyExc) (f : α → Except PyExc β) :
    (Bind.bind (Except.error e) f : Except PyExc β) = Except.error e := rfl

theorem pyLookup_dictInsert_self (l : List (String × PyVal)) (k : String) (v : PyVal) :
    pyLookup (dictInsert l k v) k = some v := by
  induction l with
  | nil => simp [dictInsert, pyLookup]
  | cons hd tl ih =>
    obtain ⟨k1, v1⟩ := hd
    by_cases h : k1 = k
    · subst h
      simp [dictInsert, pyLookup]
    · simp [dictInsert, pyLookup, h, ih]

theorem pyLookup_dictInsert_other (l : List (String × PyVal)) (k k2 : String) (v : PyVal)
    (hne : k2 ≠ k) : pyLookup (dictInsert l k v) k2 = pyLookup l k2 := by
  have hne2 : ¬(k = k2) := fun h => hne h.symm
  induction l with
  | nil => simp [dictInsert, pyLookup, hne2]
  | cons hd tl ih =>
    obtain ⟨k1, v1⟩ := hd
    by_cases h : k1 = k
    · subst h
      simp [dictInsert, pyLookup, hne2]
    · by_cases h2 : k1 = k2
      · subst h2
        simp [dictInsert, pyLookup, h]
      · simp [dictInsert, pyLookup, h, h2, ih]

/-! Claim C1. -/

/-- C1 (code bug): the spec says that with `OPENROUTER_API_KEY` absent,
`get_ai_response` returns the fixed fallback string and raises nothing; the
docstrings agree (`safe, non-raising`, `Return None if API key missing`).
In the code as written, the debug block of `get_openrouter_client` reads the
local `openrouter_api_key` at line 74 before its assignment at line 82, so
every call raises `UnboundLocalError` — for every global/client state,
environment, message list and completion behaviour — and the call site at
line 103 of `get_ai_response` sits outside the try/except, so the exception
reaches the caller and the fallback string is never returned. -/
theorem C1_unbound_local_escapes (g : Option OpenAIClient) (env_key : Option String)
    (messages : List (String × String))
    (complete : OpenAIClient → List (String × String) → Except PyExc String) :
    get_ai_response g env_key messages complete =
      Except.error (PyExc.unboundLocalError "openrouter_api_key") := rfl

/-! Claim C7. -/

/-- C7: the cleanup-and-parse stage of the tolerant extractor maps the plain
object, the code-fenced object and the object with a trailing line comment
all to the record with key a and value 1.  (The third input survives not
because the comment is stripped — the mid-line `//` does not match the
line-anchored comment pattern — but through the brace-span fallback.) -/
theorem C7_extractor_robustness :
    extract_json c7_input_plain = PyVal.vdict [("a", PyVal.vint 1)] ∧
    extract_json c7_input_fenced = PyVal.vdict [("a", PyVal.vint 1)] ∧
    extract_json c7_input_comment = PyVal.vdict [("a", PyVal.vint 1)] :=
  ⟨rfl, rfl, rfl⟩

/-! Claim C8. -/

/-- C8: for every raw text on which all parse attempts fail, the extractor
returns (never raises) a record holding an `error` key and the original raw
text under `raw_response`. -/
theorem C8_garbage_gives_error_record (response : String)
    (h : parse_attempts_fail response = true) :
    ∃ msg, extract_json response =
      PyVal.vdict [("error", PyVal.vstr msg), ("raw_response", PyVal.vstr response)] := by
  unfold parse_attempts_fail at h
  cases h1 : json_loads (cleanup_phase response) with
  | ok v => rw [h1] at h; simp at h
  | error e1 =>
    rw [h1] at h
    cases h2 : brace_span (cleanup_phase response) with
    | none =>
      rw [h2] at h
      refine ⟨e1, ?_⟩
      simp only [extract_json, h1, h2]
    | some fixed =>
      rw [h2] at h
      cases h3 : json_loads fixed with
      | ok v => simp only [h3] at h; simp at h
      | error e2 =>
        refine ⟨e2, ?_⟩
        simp only [extract_json, h1, h2, h3]

/-- Witness for C8 at a concrete non-JSON input. -/
theorem C8_garbage_gives_error_record_witness :
    parse_attempts_fail c8_garbage = true ∧
    ∃ msg, extract_json c8_garbage =
      PyVal.vdict [("error", PyVal.vstr msg), ("raw_response", PyVal.vstr c8_garbage)] :=
  ⟨rfl, C8_garbage_gives_error_record c8_garbage rfl⟩

/-! Claim C10. -/

theorem remove_stars_no_star (s : String) : ∀ c ∈ (remove_stars s).toList, c ≠ '*' := by
  intro c hc
  unfold remove_stars at hc
  simp only [String.toList] at hc
  have := List.mem_filter.mp hc
  simpa using this.2

theorem bc_go_mem (fuel : Nat) : ∀ cs : List Char, ∀ c ∈ bc_go fuel cs, c ∈ cs ∨ c = '\n' := by
  induction fuel with
  | zero => intro cs c hc; exact Or.inl hc
  | succ n ih =>
    intro cs c hc
    match cs with
    | [] => simp [bc_go] at hc
    | a :: rest =>
      simp only [bc_go] at hc
      by_cases ha : a = '\n'
      · rw [if_pos ha] at hc
        by_cases hrun : (rest.takeWhile isPySpace).contains '\n'
        · rw [if_pos hrun] at hc
          rcases List.mem_cons.mp hc with h | h
          · exact Or.inr h
          · rcases ih _ c h with h2 | h2
            · rcases List.mem_append.mp h2 with h3 | h3
              · have h4 : c ∈ rest.takeWhile isPySpace := by
                  have h5 : c ∈ (rest.takeWhile isPySpace).reverse.takeWhile
                      (fun x => x ≠ '\n') := List.mem_reverse.mp (by simpa [nlTail] using h3)
                  exact List.mem_reverse.mp
                    ((List.takeWhile_sublist _).subset h5)
                exact Or.inl (List.mem_cons_of_mem a ((List.takeWhile_sublist _).subset h4))
              · exact Or.inl (List.mem_cons_of_mem a ((List.dropWhile_sublist _).subset h3))
            · exact Or.inr h2
        · rw [if_neg hrun] at hc
          rcases List.mem_cons.mp hc with h | h
          · exact Or.inl (by simp [h])
          · rcases ih _ c h with h2 | h2
            · exact Or.inl (List.mem_cons_of_mem a h2)
            · exact Or.inr h2
      · rw [if_neg ha] at hc
        rcases List.mem_cons.mp hc with h | h
        · exact Or.inl (by simp [h])
        · rcases ih _ c h with h2 | h2
          · exact Or.inl (List.mem_cons_of_mem a h2)
          · exact Or.inr h2

theorem cleanup_phase_no_star (s : String) : ∀ c ∈ (cleanup_phase s).toList, c ≠ '*' := by
  intro c hc
  unfold cleanup_phase blank_collapse at hc
  simp only [String.toList] at hc
  rcases bc_go_mem _ _ c hc with h | h
  · exact remove_stars_no_star _ c h
  · subst h; decide

/-- C10 (amended): the cleanup unconditionally removes every asterisk
before parsing — the cleaned text never contains one, for any input — so
the extractor is not content-preserving even on well-formed input: the
input `\x7b"a": "x*y"\x7d` is already valid JSON (it parses directly to
the value x*y), yet the extractor returns the value with the asterisk
deleted.  (The claim's stronger universal — every returned value equals
the original minus its asterisks — fails because other repair rules also
fire inside string values; see the counterexample.) -/
theorem C10_star_stripping :
    (∀ s : String, ∀ c ∈ (cleanup_phase s).toList, c ≠ '*') ∧
    json_loads c10_star_input = Except.ok (PyVal.vdict [("a", PyVal.vstr "x*y")]) ∧
    extract_json c10_star_input = PyVal.vdict [("a", PyVal.vstr "xy")] :=
  ⟨cleanup_phase_no_star, rfl, rfl⟩

/-- C10 counterexample to the universal as stated: the input is valid JSON
whose value is `*x"\x7d ` — the value minus its asterisks would be
`x"\x7d ` — but the comma-repair rule of line 134 also fires across the
escaped quote, so the extractor returns `x"\x7d, ` instead: removal of
asterisks is not the only change the cleanup makes to well-formed string
values. -/
theorem C10_comma_repair_counterexample :
    json_loads c10_comma_repair_input =
      Except.ok (PyVal.vdict [("a", PyVal.vstr "*x\"\x7d ")]) ∧
    extract_json c10_comma_repair_input =
      PyVal.vdict [("a", PyVal.vstr "x\"\x7d, ")] ∧
    ("x\"\x7d, " : String) ≠ ("x\"\x7d " : String) :=
  ⟨rfl, rfl, by decide⟩

/-! Claim C2. -/

/-- C2: whenever the structured extraction yields an error record (a dict
whose `error` entry is truthy), the handler returns — without raising — the
apology reply, the caller's memory unmodified, empty updated-field and
missing-info lists, no research trigger, and performs no persistence write
and no research call. -/
theorem C2_extraction_error_turn (d : List (String × PyVal))
    (research_extraction : PyVal) (session_id : String)
    (current_memory : List (String × PyVal))
    (h : truthy (pyLookupD d "error" PyVal.vnone) = true) :
    handle_natural_conversation (PyVal.vdict d) research_extraction session_id
        current_memory =
      Except.ok
        (ConvOut.mk (PyVal.vstr "An error occurred during AI processing. Please try again.")
          (PyVal.vdict current_memory) (PyVal.vlist []) (PyVal.vlist []) false (PyVal.vdict []),
         ConvTrace.mk [] 0) := by
  unfold handle_natural_conversation
  simp [pyGet, h]

/-- Witness for C2 at a concrete extraction error record. -/
theorem C2_extraction_error_turn_witness :
    truthy (pyLookupD c2_err_result "error" PyVal.vnone) = true ∧
    handle_natural_conversation (PyVal.vdict c2_err_result) (PyVal.vdict [])
        "session-1" [("title", PyVal.vstr "T")] =
      Except.ok
        (ConvOut.mk (PyVal.vstr "An error occurred during AI processing. Please try again.")
          (PyVal.vdict [("title", PyVal.vstr "T")]) (PyVal.vlist []) (PyVal.vlist []) false
          (PyVal.vdict []),
         ConvTrace.mk [] 0) :=
  ⟨rfl, C2_extraction_error_turn c2_err_result (PyVal.vdict []) "session-1"
    [("title", PyVal.vstr "T")] rfl⟩

/-! Claim C6. -/

/-- C6 counterexample: on a parse failure the trigger does not surface the
extractor's error record unchanged — it returns a fresh one-entry record
whose `error` key now holds the raw text, dropping both the parse message
and the `raw_response` key. -/
theorem C6_error_record_rewrapped :
    auto_research_project c6_err_record =
      Except.ok (PyVal.vdict [("error", PyVal.vstr "garbage text")]) ∧
    PyVal.vdict [("error", PyVal.vstr "garbage text")] ≠ c6_err_record :=
  ⟨rfl, by simp [c6_err_record]⟩

/-- C6 amended: on a parse failure (truthy `error` entry) the trigger
returns a fresh record whose single `error` key holds the extractor's
`raw_response` value (`None` when absent), rather than the error record
unchanged; on success it passes the three plain-text sections through
(defaulting to empty strings) and serialises `system_requirements` and
`feasibility_analysis` with 2-space-indented canonical JSON text. -/
theorem C6_amended_research_formatting (rd : List (String × PyVal)) :
    (truthy (pyLookupD rd "error" PyVal.vnone) = true →
      sliceable (pyLookupD rd "raw_response" (PyVal.vstr "")) = true →
      auto_research_project (PyVal.vdict rd) =
        Except.ok (PyVal.vdict [("error", pyLookupD rd "raw_response" PyVal.vnone)])) ∧
    (truthy (pyLookupD rd "error" PyVal.vnone) = false →
      auto_research_project (PyVal.vdict rd) =
        Except.ok (PyVal.vdict
          [("introduction", pyLookupD rd "introduction" (PyVal.vstr "")),
           ("literature_review", pyLookupD rd "literature_review" (PyVal.vstr "")),
           ("methodology", pyLookupD rd "methodology" (PyVal.vstr "")),
           ("system_requirements",
             PyVal.vstr (json_dumps_indent2
               (pyLookupD rd "system_requirements" (PyVal.vdict [])))),
           ("feasibility_analysis",
             PyVal.vstr (json_dumps_indent2
               (pyLookupD rd "feasibility_analysis" (PyVal.vdict []))))])) := by
  constructor
  · intro h hs
    unfold auto_research_project
    simp only [pyGet, pyGetD, bind_ok_eq, h, if_pos]
    cases hv : pyLookupD rd "raw_response" (PyVal.vstr "") <;>
      rw [hv] at hs <;> simp [sliceable] at hs <;>
      simp [pySlice500, hv]
  · intro h
    unfold auto_research_project
    simp only [pyGet, pyGetD, bind_ok_eq, h]
    simp

/-- Witness for the amended C6 on both branches. -/
theorem C6_amended_research_formatting_witness :
    auto_research_project (PyVal.vdict c6_wit_err) =
      Except.ok (PyVal.vdict [("error", PyVal.vstr "bad model text")]) ∧
    auto_research_project (PyVal.vdict c6_wit_ok) =
      Except.ok (PyVal.vdict
        [("introduction", PyVal.vstr "I"),
         ("literature_review", PyVal.vstr ""),
         ("methodology", PyVal.vstr "M"),
         ("system_requirements", PyVal.vstr "\x7b\x7d"),
         ("feasibility_analysis", PyVal.vstr "\x7b\x7d")]) := by
  refine ⟨(C6_amended_research_formatting c6_wit_err).1 rfl rfl, ?_⟩
  rw [(C6_amended_research_formatting c6_wit_ok).2 rfl]
  simp [c6_wit_ok, pyLookupD, pyLookup, json_dumps_indent2, json_dumps2]

/-! Claim C5. -/

/-- C5 amended: with a configured client, `save_memory` never writes the
in-process cache — whatever the backend does, including raising on the
select or on the write — and never raises or reports failure to its caller
(it is a total function into the plain pair type); the cache fallback
happens only when the store is unconfigured (`client = None`), which is
when the record is stored under the session id. -/
theorem C5_amended_save_memory_fallback (b : SupabaseBackend)
    (cache : List (String × PyVal)) (session_id : String) (memory idea : PyVal)
    (now : String) :
    (save_memory (some b) cache session_id memory idea now).1 = cache ∧
    (save_memory Option.none cache session_id memory idea now).1 =
      dictInsert cache session_id memory := by
  constructor
  · unfold save_memory
    cases pyGetD memory "title" (PyVal.vstr "") with
    | error e => rfl
    | ok title =>
      simp only
      cases b.select_rows session_id with
      | error e => rfl
      | ok rows =>
        simp only
        by_cases hr : truthy rows = true
        · simp only [hr, if_pos]
          cases pyLen rows with
          | error e => rfl
          | ok n =>
            by_cases hn : 0 < n <;> simp [hn]
        · simp only [Bool.not_eq_true] at hr
          simp [hr]
  · rfl

/-- C5 counterexample: the backend accepts the select but raises on the
insert; `save_memory` swallows the failure, yet the record is not stored in
the in-process cache (the cache stays empty), contradicting the claimed
cache fallback on write failure. -/
theorem C5_write_failure_drops_record :
    save_memory (some c5_failing_backend) [] "s1" c5_memory PyVal.vnone
        "2024-01-01T00:00:00" =
      ([], [DbOp.selectOp "s1",
            DbOp.insertOp (PyVal.vdict
              [("project_idea", PyVal.vstr "Chess engine"),
               ("research_data", c5_memory),
               ("updated_at", PyVal.vstr "2024-01-01T00:00:00"),
               ("session_id", PyVal.vstr "s1"),
               ("created_at", PyVal.vstr "2024-01-01T00:00:00")])]) ∧
    pyLookup (save_memory (some c5_failing_backend) [] "s1" c5_memory PyVal.vnone
        "2024-01-01T00:00:00").1 "s1" = Option.none :=
  ⟨rfl, rfl⟩

/-! Claim C9. -/

/-- C9: an empty query yields an empty sequence with no endpoint call; a
transport-level failure on a non-empty query yields — without raising — the
single-element sequence holding the fixed user-facing error string, after
exactly one endpoint call. -/
theorem C9_search_error_paths (limit : Int) (sort_by : String)
    (transport : GhParams → Except PyExc PyVal)
    (fetch_details : PyVal → PyVal) (quality_of : PyVal → PyVal)
    (fmtA : PyVal → PyVal → PyVal → Nat → Except PyExc String)
    (fmtB : PyVal → Nat → Except PyExc String) :
    (search_github_repos "" limit sort_by transport fetch_details quality_of fmtA fmtB =
      (Except.ok [], 0)) ∧
    (∀ query, query ≠ "" →
      ∀ e, transport (mk_search_params query limit sort_by) = Except.error e →
        search_github_repos query limit sort_by transport fetch_details quality_of
            fmtA fmtB =
          (Except.ok [github_error_msg], 1)) := by
  constructor
  · unfold search_github_repos
    simp [truthy]
  · intro query hq e he
    unfold search_github_repos
    have ht : truthy (PyVal.vstr query) = true := by
      simp [truthy, hq]
    rw [ht]
    simp [he]

/-! Claim C4. -/

/-- C4 counterexample: for an empty memory the renderer emits the section-6
and section-7 headings with no body at all — headings present, bodies
empty — contradicting the claim that every one of the 10 sections is
populated with its designated placeholder text with none left blank. -/
theorem C4_blank_sections_counterexample :
    synopsis_story [] PyVal.vnone = Except.ok empty_memory_story ∧
    Story.para "<b>6. SYSTEM REQUIREMENTS</b>" "Heading2" ∈ empty_memory_story ∧
    Story.para "<b>7. FEASIBILITY ANALYSIS</b>" "Heading2" ∈ empty_memory_story ∧
    section_body empty_memory_story "<b>6. SYSTEM REQUIREMENTS</b>" = [] ∧
    section_body empty_memory_story "<b>7. FEASIBILITY ANALYSIS</b>" = [] :=
  ⟨by rfl, by decide, by decide, rfl, rfl⟩

/-- C4 amended: for an empty memory and no research results the renderer
emits the title page, the table of contents, and all 10 fixed section
headings in order; sections 1-5 and 8-10 each carry exactly their
designated placeholder paragraph, while sections 6 (System Requirements)
and 7 (Feasibility Analysis) emit their headings with an empty body. -/
theorem C4_amended_all_headings_two_blank :
    synopsis_story [] PyVal.vnone = Except.ok empty_memory_story ∧
    (synopsis_headings.all (fun h =>
      empty_memory_story.contains (Story.para h "Heading2"))) = true ∧
    (empty_placeholders.all (fun hp =>
      decide (section_body empty_memory_story hp.1 = [Story.para hp.2 "Normal"]))) = true ∧
    section_body empty_memory_story "<b>6. SYSTEM REQUIREMENTS</b>" = [] ∧
    section_body empty_memory_story "<b>7. FEASIBILITY ANALYSIS</b>" = [] :=
  ⟨by rfl, by decide, by decide, rfl, rfl⟩

/-- Witness for C9: the non-empty-query transport-failure branch at a
concrete query and failing transport (the empty-query branch is
hypothesis-free). -/
theorem C9_search_error_paths_witness :
    search_github_repos "chess engine" 5 "stars"
        (fun _ => Except.error (PyExc.valueError "ConnectionError"))
        (fun _ => PyVal.vnone) (fun _ => PyVal.vnone)
        (fun _ _ _ _ => Except.ok "") (fun _ _ => Except.ok "") =
      (Except.ok [github_error_msg], 1) :=
  (C9_search_error_paths 5 "stars"
      (fun _ => Except.error (PyExc.valueError "ConnectionError"))
      (fun _ => PyVal.vnone) (fun _ => PyVal.vnone)
      (fun _ _ _ _ => Except.ok "") (fun _ _ => Except.ok "")).2
    "chess engine" (by decide) (PyExc.valueError "ConnectionError") rfl

/-! Claim C3. -/

/-- Every falsy Python value has a short trimmed string form, so the
truthiness conjunct in line 295's comprehension never changes the count. -/
theorem falsy_short (v : PyVal) (h : truthy v = false) :
    (pyStrip (pyStr v)).length ≤ 10 := by
  cases v with
  | vnone => decide
  | vbool b =>
    cases b with
    | false => decide
    | true => simp [truthy] at h
  | vint n =>
    have hn : n = 0 := by simpa [truthy] using h
    subst hn
    decide
  | vfloat lx =>
    have hz : floatIsZero lx = true := by simpa [truthy] using h
    have hv : pyStr (PyVal.vfloat lx) = "0.0" := by simp [pyStr, hz]
    rw [hv]
    decide
  | vstr s =>
    have hs : s = "" := by simpa [truthy] using h
    subst hs
    decide
  | vlist xs =>
    have hx : xs = [] := by simpa [truthy, List.isEmpty_iff] using h
    subst hx
    have hv : pyStr (PyVal.vlist []) = "[]" := by simp [pyStr, pyRepr]; rfl
    rw [hv]
    decide
  | vdict dd =>
    have hx : dd = [] := by simpa [truthy, List.isEmpty_iff] using h
    subst hx
    have hv : pyStr (PyVal.vdict []) = "\x7b\x7d" := by simp [pyStr, pyRepr]; rfl
    rw [hv]
    decide

/-- The count of line 295 equals the plain count of values whose trimmed
string form exceeds 10 characters, as the spec words it. -/
theorem filled_count_ignores_truthiness (du : List (String × PyVal)) :
    filled_count du =
      (du.filter (fun kv => decide (10 < (pyStrip (pyStr kv.2)).length))).length := by
  unfold filled_count
  congr 1
  apply List.filter_congr
  intro kv _
  cases ht : truthy kv.2 with
  | true => simp
  | false =>
    have hle := falsy_short kv.2 ht
    have hd : (decide (10 < (pyStrip (pyStr kv.2)).length)) = false := by
      simp only [decide_eq_false_iff_not]
      omega
    simp [hd]

theorem auto_research_success (rd : List (String × PyVal))
    (hre : truthy (pyLookupD rd "error" PyVal.vnone) = false) :
    auto_research_project (PyVal.vdict rd) = Except.ok (research_success_record rd) := by
  unfold auto_research_project research_success_record
  simp [pyGet, pyGetD, hre]

theorem auto_research_error_wrap (rd : List (String × PyVal))
    (hre : truthy (pyLookupD rd "error" PyVal.vnone) = true)
    (hs : sliceable (pyLookupD rd "raw_response" (PyVal.vstr "")) = true) :
    auto_research_project (PyVal.vdict rd) =
      Except.ok (PyVal.vdict [("error", pyLookupD rd "raw_response" PyVal.vnone)]) := by
  unfold auto_research_project
  simp only [pyGet, pyGetD, bind_ok_eq, hre, if_pos]
  cases hv : pyLookupD rd "raw_response" (PyVal.vstr "") <;>
    rw [hv] at hs <;> simp [sliceable] at hs <;>
    simp [pySlice500, hv]

/-- Evaluation of a turn whose extraction succeeded but whose trigger
condition is off: no research call, no trigger, memory as merged. -/
theorem handle_no_trigger (d : List (String × PyVal)) (re : PyVal) (sid : String)
    (mem du : List (String × PyVal))
    (herr : truthy (pyLookupD d "error" PyVal.vnone) = false)
    (hum : pyLookupD d "updated_memory" (PyVal.vdict mem) = PyVal.vdict du)
    (hcond : (decide (3 ≤ filled_count du) &&
      !truthy (pyLookupD du "auto_research_done" PyVal.vnone)) = false) :
    handle_natural_conversation (PyVal.vdict d) re sid mem =
      Except.ok
        (ConvOut.mk
          (pyLookupD d "ai_response"
            (PyVal.vstr "I\x27m not sure what to say, can you rephrase?"))
          (PyVal.vdict du)
          (pyLookupD d "updated_fields" (PyVal.vlist []))
          (pyLookupD d "missing_info" (PyVal.vlist []))
          false (PyVal.vdict []),
         ConvTrace.mk
           (if truthy (pyLookupD d "updated_fields" (PyVal.vlist []))
            then [(sid, PyVal.vdict du)] else [])
           0) := by
  simp only [filled_count] at hcond
  unfold handle_natural_conversation
  simp only [pyGet, pyGetD, bind_ok_eq, herr, hum, pyItems, hcond]
  simp

/-- Evaluation of a turn that fires the trigger and whose research call
parses cleanly: the flag is set, the merged memory with research results is
persisted as the last save, and the trigger is reported. -/
theorem handle_trigger_success (d rd : List (String × PyVal)) (sid : String)
    (mem du : List (String × PyVal))
    (herr : truthy (pyLookupD d "error" PyVal.vnone) = false)
    (hum : pyLookupD d "updated_memory" (PyVal.vdict mem) = PyVal.vdict du)
    (hcond : (decide (3 ≤ filled_count du) &&
      !truthy (pyLookupD du "auto_research_done" PyVal.vnone)) = true)
    (hre : truthy (pyLookupD rd "error" PyVal.vnone) = false) :
    handle_natural_conversation (PyVal.vdict d) (PyVal.vdict rd) sid mem =
      Except.ok
        (ConvOut.mk
          (pyLookupD d "ai_response"
            (PyVal.vstr "I\x27m not sure what to say, can you rephrase?"))
          (PyVal.vdict (dictInsert (dictInsert du "auto_research_done" (PyVal.vbool true))
            "research_results" (research_success_record rd)))
          (pyLookupD d "updated_fields" (PyVal.vlist []))
          (pyLookupD d "missing_info" (PyVal.vlist []))
          true (research_success_record rd),
         ConvTrace.mk
           ((if truthy (pyLookupD d "updated_fields" (PyVal.vlist []))
             then [(sid, PyVal.vdict du)] else []) ++
            [(sid, PyVal.vdict (dictInsert (dictInsert du "auto_research_done" (PyVal.vbool true))
              "research_results" (research_success_record rd)))])
           1) := by
  simp only [filled_count] at hcond
  unfold handle_natural_conversation
  simp only [pyGet, pyGetD, bind_ok_eq, herr, hum, pyItems, hcond,
    auto_research_success rd hre]
  simp only [research_success_record, pyGet, pyLookupD, pyLookup, bind_ok_eq]
  simp [pySetItem, truthy]

/-- Evaluation of a turn that fires the trigger but whose research call
fails to parse (truthy `error` and truthy `raw_response` in the research
extraction): research is invoked yet the flag stays unset, nothing extra is
persisted, the trigger is not reported, and the note is appended to the
reply. -/
theorem handle_trigger_research_error (d rd : List (String × PyVal)) (sid : String)
    (mem du : List (String × PyVal)) (s : String)
    (herr : truthy (pyLookupD d "error" PyVal.vnone) = false)
    (hum : pyLookupD d "updated_memory" (PyVal.vdict mem) = PyVal.vdict du)
    (hcond : (decide (3 ≤ filled_count du) &&
      !truthy (pyLookupD du "auto_research_done" PyVal.vnone)) = true)
    (hre : truthy (pyLookupD rd "error" PyVal.vnone) = true)
    (hs : sliceable (pyLookupD rd "raw_response" (PyVal.vstr "")) = true)
    (hrawt : truthy (pyLookupD rd "raw_response" PyVal.vnone) = true)
    (hair : pyLookupD d "ai_response"
      (PyVal.vstr "I\x27m not sure what to say, can you rephrase?") = PyVal.vstr s) :
    handle_natural_conversation (PyVal.vdict d) (PyVal.vdict rd) sid mem =
      Except.ok
        (ConvOut.mk
          (PyVal.vstr (s ++ "\n\n(Auto-research encountered an issue, but you can continue.)"))
          (PyVal.vdict du)
          (pyLookupD d "updated_fields" (PyVal.vlist []))
          (pyLookupD d "missing_info" (PyVal.vlist []))
          false (PyVal.vdict [("error", pyLookupD rd "raw_response" PyVal.vnone)]),
         ConvTrace.mk
           (if truthy (pyLookupD d "updated_fields" (PyVal.vlist []))
            then [(sid, PyVal.vdict du)] else [])
           1) := by
  simp only [filled_count] at hcond
  unfold handle_natural_conversation
  simp only [pyGet, pyGetD, bind_ok_eq, herr, hum, pyItems, hcond,
    auto_research_error_wrap rd hre hs, hair]
  have hg : pyLookupD [("error", pyLookupD rd "raw_response" PyVal.vnone)] "error" PyVal.vnone =
      pyLookupD rd "raw_response" PyVal.vnone := by
    simp [pyLookupD, pyLookup]
  simp only [hg, hrawt]
  simp [pyAddStr]

/-- Evaluation of a turn that fires the trigger and whose research
extraction yields an error record with a FALSY `raw_response` (as the
extractor produces when the provider returns empty text): line 209 re-wraps
it as a record whose `error` value is that falsy raw text, line 302's
truthiness check then takes the success branch, and the handler sets
`auto_research_done`, persists the error record under `research_results`,
and reports the trigger. -/
theorem handle_trigger_error_falsy_raw (d rd : List (String × PyVal)) (sid : String)
    (mem du : List (String × PyVal))
    (herr : truthy (pyLookupD d "error" PyVal.vnone) = false)
    (hum : pyLookupD d "updated_memory" (PyVal.vdict mem) = PyVal.vdict du)
    (hcond : (decide (3 ≤ filled_count du) &&
      !truthy (pyLookupD du "auto_research_done" PyVal.vnone)) = true)
    (hre : truthy (pyLookupD rd "error" PyVal.vnone) = true)
    (hs : sliceable (pyLookupD rd "raw_response" (PyVal.vstr "")) = true)
    (hrawf : truthy (pyLookupD rd "raw_response" PyVal.vnone) = false) :
    handle_natural_conversation (PyVal.vdict d) (PyVal.vdict rd) sid mem =
      Except.ok
        (ConvOut.mk
          (pyLookupD d "ai_response"
            (PyVal.vstr "I\x27m not sure what to say, can you rephrase?"))
          (PyVal.vdict (dictInsert (dictInsert du "auto_research_done" (PyVal.vbool true))
            "research_results"
            (PyVal.vdict [("error", pyLookupD rd "raw_response" PyVal.vnone)])))
          (pyLookupD d "updated_fields" (PyVal.vlist []))
          (pyLookupD d "missing_info" (PyVal.vlist []))
          true (PyVal.vdict [("error", pyLookupD rd "raw_response" PyVal.vnone)]),
         ConvTrace.mk
           ((if truthy (pyLookupD d "updated_fields" (PyVal.vlist []))
             then [(sid, PyVal.vdict du)] else []) ++
            [(sid, PyVal.vdict (dictInsert (dictInsert du "auto_research_done" (PyVal.vbool true))
              "research_results"
              (PyVal.vdict [("error", pyLookupD rd "raw_response" PyVal.vnone)])))])
           1) := by
  simp only [filled_count] at hcond
  unfold handle_natural_conversation
  simp only [pyGet, pyGetD, bind_ok_eq, herr, hum, pyItems, hcond,
    auto_research_error_wrap rd hre hs]
  have hg : pyLookupD [("error", pyLookupD rd "raw_response" PyVal.vnone)] "error" PyVal.vnone =
      pyLookupD rd "raw_response" PyVal.vnone := by
    simp [pyLookupD, pyLookup]
  simp only [hg, hrawf]
  simp [pySetItem]

theorem turn_preserves_flag (t : PyVal × PyVal) (sid : String)
    (mem : List (String × PyVal))
    (hmem : truthy (pyLookupD mem "auto_research_done" PyVal.vnone) = true)
    (ht : turn_keeps_done t) :
    ∃ out tr, handle_natural_conversation t.1 t.2 sid mem = Except.ok (out, tr) ∧
      tr.researchCalls = 0 ∧
      ∃ d2, out.updated_memory = PyVal.vdict d2 ∧
        truthy (pyLookupD d2 "auto_research_done" PyVal.vnone) = true := by
  obtain ⟨d, hd, hcases⟩ := ht
  rw [hd]
  by_cases herr : truthy (pyLookupD d "error" PyVal.vnone) = true
  · refine ⟨ConvOut.mk
        (PyVal.vstr "An error occurred during AI processing. Please try again.")
        (PyVal.vdict mem) (PyVal.vlist []) (PyVal.vlist []) false (PyVal.vdict []),
      ConvTrace.mk [] 0, ?_, rfl, mem, rfl, hmem⟩
    unfold handle_natural_conversation
    simp [pyGet, herr]
  · rw [Bool.not_eq_true] at herr
    rcases hcases with h | habs | ⟨du, humm, hflag⟩
    · exact absurd h (by simp [herr])
    · have hum : pyLookupD d "updated_memory" (PyVal.vdict mem) = PyVal.vdict mem := by
        simp [pyLookupD, habs]
      refine ⟨_, _, handle_no_trigger d t.2 sid mem mem herr hum ?_, rfl, mem, rfl, hmem⟩
      simp [hmem]
    · have hum : pyLookupD d "updated_memory" (PyVal.vdict mem) = PyVal.vdict du := by
        simp [pyLookupD, humm]
      refine ⟨_, _, handle_no_trigger d t.2 sid mem du herr hum ?_, rfl, du, rfl, hflag⟩
      simp [hflag]

theorem run_turns_no_retrigger (sid : String) (turns : List (PyVal × PyVal)) :
    ∀ mem : List (String × PyVal),
      truthy (pyLookupD mem "auto_research_done" PyVal.vnone) = true →
      (∀ t ∈ turns, turn_keeps_done t) →
      ∃ m, run_turns sid mem turns = Except.ok (m, 0) ∧
        truthy (pyLookupD m "auto_research_done" PyVal.vnone) = true := by
  induction turns with
  | nil => intro mem hmem _; exact ⟨mem, rfl, hmem⟩
  | cons t rest ih =>
    intro mem hmem hall
    obtain ⟨out, tr, heq, hcalls, d2, hd2, hflag⟩ :=
      turn_preserves_flag t sid mem hmem (hall t (List.mem_cons_self t rest))
    obtain ⟨m, hrun, hm⟩ := ih d2 hflag (fun t2 ht2 => hall t2 (List.mem_cons_of_mem t ht2))
    refine ⟨m, ?_, hm⟩
    obtain ⟨r, re⟩ := t
    unfold run_turns
    rw [heq]
    simp only [bind_ok_eq]
    rw [hd2]
    simp only [hrun, bind_ok_eq, hcalls]
    simp

/-- C3 counterexample: one turn starting from a memory whose
`auto_research_done` is already true.  The extraction result carries an
`updated_memory` without the flag (the prompt's required format lists only
the seven content fields), so the guard at line 300 — which reads the flag
from the model-returned memory, not the caller's — fires auto-research
again (researchCalls = 1), violating the claim's never-again clause; and
because the research extraction errors, the turn reports
`auto_research_triggered = false` even though research was invoked,
violating the claim's invoked-implies-reported clause. -/
theorem C3_retrigger_counterexample :
    truthy (pyLookupD c3_prev_memory "auto_research_done" PyVal.vnone) = true ∧
    handle_natural_conversation (PyVal.vdict c3_model_result)
        (PyVal.vdict c3_research_failure) "s1" c3_prev_memory =
      Except.ok
        (ConvOut.mk
          (PyVal.vstr "Sounds good!\n\n(Auto-research encountered an issue, but you can continue.)")
          (PyVal.vdict
            [("title", PyVal.vstr "A project on automated planning"),
             ("objective_scope", PyVal.vstr "Build and evaluate a planner"),
             ("process_description", PyVal.vstr "Iterative prototyping approach")])
          (PyVal.vlist [PyVal.vstr "objective_scope"])
          (PyVal.vlist [])
          false
          (PyVal.vdict [("error", PyVal.vstr "not json")]),
         ConvTrace.mk
           [("s1", PyVal.vdict
             [("title", PyVal.vstr "A project on automated planning"),
              ("objective_scope", PyVal.vstr "Build and evaluate a planner"),
              ("process_description", PyVal.vstr "Iterative prototyping approach")])]
           1) :=
  ⟨rfl, by rfl⟩

/-- C3 amended: (1) the trigger count equals the count of memory values
whose trimmed string form exceeds 10 characters, but it is taken over the
post-merge updated memory, whose `auto_research_done` flag — not the
caller's — also gates the trigger; (2) with the guard off, no research call
is made and nothing is reported; (3) with the guard on and a cleanly
parsing research call, auto-research runs once, the flag is set, the
enriched memory is persisted as the final save, and the trigger is
reported; (4) with the guard on and a failing research call whose raw
text is truthy, auto-research still runs but the flag stays unset, nothing
extra is persisted and the trigger is not reported (a later turn may
retry); (5) with the guard on and a failing research call whose raw text
is falsy — the extractor's record when the provider returns empty text —
the re-wrapped error record slips through line 302's truthiness check, so
the handler sets the flag, persists the error record under
`research_results`, and reports the trigger anyway; (6) once the flag is
true, it is never re-triggered across any sequence of turns whose
extraction results keep the flag — error turns, turns omitting
`updated_memory`, and turns whose returned memory carries the flag. -/
theorem C3_amended_trigger_protocol :
    (∀ du : List (String × PyVal),
      filled_count du =
        (du.filter (fun kv => decide (10 < (pyStrip (pyStr kv.2)).length))).length) ∧
    (∀ d : List (String × PyVal), ∀ re : PyVal, ∀ sid : String,
      ∀ mem du : List (String × PyVal),
      truthy (pyLookupD d "error" PyVal.vnone) = false →
      pyLookupD d "updated_memory" (PyVal.vdict mem) = PyVal.vdict du →
      (decide (3 ≤ filled_count du) &&
        !truthy (pyLookupD du "auto_research_done" PyVal.vnone)) = false →
      handle_natural_conversation (PyVal.vdict d) re sid mem =
        Except.ok
          (ConvOut.mk
            (pyLookupD d "ai_response"
              (PyVal.vstr "I\x27m not sure what to say, can you rephrase?"))
            (PyVal.vdict du)
            (pyLookupD d "updated_fields" (PyVal.vlist []))
            (pyLookupD d "missing_info" (PyVal.vlist []))
            false (PyVal.vdict []),
           ConvTrace.mk
             (if truthy (pyLookupD d "updated_fields" (PyVal.vlist []))
              then [(sid, PyVal.vdict du)] else [])
             0)) ∧
    (∀ d rd : List (String × PyVal), ∀ sid : String,
      ∀ mem du : List (String × PyVal),
      truthy (pyLookupD d "error" PyVal.vnone) = false →
      pyLookupD d "updated_memory" (PyVal.vdict mem) = PyVal.vdict du →
      (decide (3 ≤ filled_count du) &&
        !truthy (pyLookupD du "auto_research_done" PyVal.vnone)) = true →
      truthy (pyLookupD rd "error" PyVal.vnone) = false →
      handle_natural_conversation (PyVal.vdict d) (PyVal.vdict rd) sid mem =
        Except.ok
          (ConvOut.mk
            (pyLookupD d "ai_response"
              (PyVal.vstr "I\x27m not sure what to say, can you rephrase?"))
            (PyVal.vdict (dictInsert (dictInsert du "auto_research_done" (PyVal.vbool true))
              "research_results" (research_success_record rd)))
            (pyLookupD d "updated_fields" (PyVal.vlist []))
            (pyLookupD d "missing_info" (PyVal.vlist []))
            true (research_success_record rd),
           ConvTrace.mk
             ((if truthy (pyLookupD d "updated_fields" (PyVal.vlist []))
               then [(sid, PyVal.vdict du)] else []) ++
              [(sid, PyVal.vdict (dictInsert (dictInsert du "auto_research_done" (PyVal.vbool true))
                "research_results" (research_success_record rd)))])
             1)) ∧
    (∀ d rd : List (String × PyVal), ∀ sid : String,
      ∀ mem du : List (String × PyVal), ∀ s : String,
      truthy (pyLookupD d "error" PyVal.vnone) = false →
      pyLookupD d "updated_memory" (PyVal.vdict mem) = PyVal.vdict du →
      (decide (3 ≤ filled_count du) &&
        !truthy (pyLookupD du "auto_research_done" PyVal.vnone)) = true →
      truthy (pyLookupD rd "error" PyVal.vnone) = true →
      sliceable (pyLookupD rd "raw_response" (PyVal.vstr "")) = true →
      truthy (pyLookupD rd "raw_response" PyVal.vnone) = true →
      pyLookupD d "ai_response"
        (PyVal.vstr "I\x27m not sure what to say, can you rephrase?") = PyVal.vstr s →
      handle_natural_conversation (PyVal.vdict d) (PyVal.vdict rd) sid mem =
        Except.ok
          (ConvOut.mk
            (PyVal.vstr (s ++ "\n\n(Auto-research encountered an issue, but you can continue.)"))
            (PyVal.vdict du)
            (pyLookupD d "updated_fields" (PyVal.vlist []))
            (pyLookupD d "missing_info" (PyVal.vlist []))
            false (PyVal.vdict [("error", pyLookupD rd "raw_response" PyVal.vnone)]),
           ConvTrace.mk
             (if truthy (pyLookupD d "updated_fields" (PyVal.vlist []))
              then [(sid, PyVal.vdict du)] else [])
             1)) ∧
    (∀ d rd : List (String × PyVal), ∀ sid : String,
      ∀ mem du : List (String × PyVal),
      truthy (pyLookupD d "error" PyVal.vnone) = false →
      pyLookupD d "updated_memory" (PyVal.vdict mem) = PyVal.vdict du →
      (decide (3 ≤ filled_count du) &&
        !truthy (pyLookupD du "auto_research_done" PyVal.vnone)) = true →
      truthy (pyLookupD rd "error" PyVal.vnone) = true →
      sliceable (pyLookupD rd "raw_response" (PyVal.vstr "")) = true →
      truthy (pyLookupD rd "raw_response" PyVal.vnone) = false →
      handle_natural_conversation (PyVal.vdict d) (PyVal.vdict rd) sid mem =
        Except.ok
          (ConvOut.mk
            (pyLookupD d "ai_response"
              (PyVal.vstr "I\x27m not sure what to say, can you rephrase?"))
            (PyVal.vdict (dictInsert (dictInsert du "auto_research_done" (PyVal.vbool true))
              "research_results"
              (PyVal.vdict [("error", pyLookupD rd "raw_response" PyVal.vnone)])))
            (pyLookupD d "updated_fields" (PyVal.vlist []))
            (pyLookupD d "missing_info" (PyVal.vlist []))
            true (PyVal.vdict [("error", pyLookupD rd "raw_response" PyVal.vnone)]),
           ConvTrace.mk
             ((if truthy (pyLookupD d "updated_fields" (PyVal.vlist []))
               then [(sid, PyVal.vdict du)] else []) ++
              [(sid, PyVal.vdict (dictInsert (dictInsert du "auto_research_done" (PyVal.vbool true))
                "research_results"
                (PyVal.vdict [("error", pyLookupD rd "raw_response" PyVal.vnone)])))])
             1)) ∧
    (∀ sid : String, ∀ turns : List (PyVal × PyVal),
      ∀ mem : List (String × PyVal),
      truthy (pyLookupD mem "auto_research_done" PyVal.vnone) = true →
      (∀ t ∈ turns, turn_keeps_done t) →
      ∃ m, run_turns sid mem turns = Except.ok (m, 0) ∧
        truthy (pyLookupD m "auto_research_done" PyVal.vnone) = true) :=
  ⟨filled_count_ignores_truthiness,
   fun d re sid mem du herr hum hcond => handle_no_trigger d re sid mem du herr hum hcond,
   fun d rd sid mem du herr hum hcond hre =>
     handle_trigger_success d rd sid mem du herr hum hcond hre,
   fun d rd sid mem du s herr hum hcond hre hs hrawt hair =>
     handle_trigger_research_error d rd sid mem du s herr hum hcond hre hs hrawt hair,
   fun d rd sid mem du herr hum hcond hre hs hrawf =>
     handle_trigger_error_falsy_raw d rd sid mem du herr hum hcond hre hs hrawf,
   fun sid turns mem hmem hall => run_turns_no_retrigger sid turns mem hmem hall⟩

/-- Witness for the amended C3 exercising all four hypothesis-bearing
conjuncts at concrete inputs. -/
theorem C3_amended_trigger_protocol_witness :
    (handle_natural_conversation (PyVal.vdict c3w_simple) PyVal.vnone "w" [] =
      Except.ok
        (ConvOut.mk (pyLookupD c3w_simple "ai_response"
            (PyVal.vstr "I\x27m not sure what to say, can you rephrase?"))
          (PyVal.vdict []) (pyLookupD c3w_simple "updated_fields" (PyVal.vlist []))
          (pyLookupD c3w_simple "missing_info" (PyVal.vlist [])) false (PyVal.vdict []),
         ConvTrace.mk
           (if truthy (pyLookupD c3w_simple "updated_fields" (PyVal.vlist []))
            then [("w", PyVal.vdict [])] else []) 0)) ∧
    (handle_natural_conversation (PyVal.vdict c3w_full) (PyVal.vdict c3w_research_ok) "w" [] =
      Except.ok
        (ConvOut.mk (pyLookupD c3w_full "ai_response"
            (PyVal.vstr "I\x27m not sure what to say, can you rephrase?"))
          (PyVal.vdict (dictInsert (dictInsert
             [("title", PyVal.vstr "Adaptive traffic light control"),
              ("objective_scope", PyVal.vstr "Reduce congestion at junctions"),
              ("process_description", PyVal.vstr "Simulation plus reinforcement")]
             "auto_research_done" (PyVal.vbool true))
            "research_results" (research_success_record c3w_research_ok)))
          (pyLookupD c3w_full "updated_fields" (PyVal.vlist []))
          (pyLookupD c3w_full "missing_info" (PyVal.vlist []))
          true (research_success_record c3w_research_ok),
         ConvTrace.mk
           ((if truthy (pyLookupD c3w_full "updated_fields" (PyVal.vlist []))
             then [("w", PyVal.vdict
               [("title", PyVal.vstr "Adaptive traffic light control"),
                ("objective_scope", PyVal.vstr "Reduce congestion at junctions"),
                ("process_description", PyVal.vstr "Simulation plus reinforcement")])] else []) ++
            [("w", PyVal.vdict (dictInsert (dictInsert
               [("title", PyVal.vstr "Adaptive traffic light control"),
                ("objective_scope", PyVal.vstr "Reduce congestion at junctions"),
                ("process_description", PyVal.vstr "Simulation plus reinforcement")]
               "auto_research_done" (PyVal.vbool true))
              "research_results" (research_success_record c3w_research_ok)))]) 1)) ∧
    (handle_natural_conversation (PyVal.vdict c3w_full) (PyVal.vdict c3w_research_bad) "w" [] =
      Except.ok
        (ConvOut.mk
          (PyVal.vstr ("Noted." ++ "\n\n(Auto-research encountered an issue, but you can continue.)"))
          (PyVal.vdict
            [("title", PyVal.vstr "Adaptive traffic light control"),
             ("objective_scope", PyVal.vstr "Reduce congestion at junctions"),
             ("process_description", PyVal.vstr "Simulation plus reinforcement")])
          (pyLookupD c3w_full "updated_fields" (PyVal.vlist []))
          (pyLookupD c3w_full "missing_info" (PyVal.vlist []))
          false (PyVal.vdict [("error", pyLookupD c3w_research_bad "raw_response" PyVal.vnone)]),
         ConvTrace.mk
           (if truthy (pyLookupD c3w_full "updated_fields" (PyVal.vlist []))
            then [("w", PyVal.vdict
              [("title", PyVal.vstr "Adaptive traffic light control"),
               ("objective_scope", PyVal.vstr "Reduce congestion at junctions"),
               ("process_description", PyVal.vstr "Simulation plus reinforcement")])] else []) 1)) ∧
    (handle_natural_conversation (PyVal.vdict c3w_full) (PyVal.vdict c3w_research_empty) "w" [] =
      Except.ok
        (ConvOut.mk (pyLookupD c3w_full "ai_response"
            (PyVal.vstr "I\x27m not sure what to say, can you rephrase?"))
          (PyVal.vdict (dictInsert (dictInsert
             [("title", PyVal.vstr "Adaptive traffic light control"),
              ("objective_scope", PyVal.vstr "Reduce congestion at junctions"),
              ("process_description", PyVal.vstr "Simulation plus reinforcement")]
             "auto_research_done" (PyVal.vbool true))
            "research_results"
            (PyVal.vdict [("error", pyLookupD c3w_research_empty "raw_response" PyVal.vnone)])))
          (pyLookupD c3w_full "updated_fields" (PyVal.vlist []))
          (pyLookupD c3w_full "missing_info" (PyVal.vlist []))
          true (PyVal.vdict [("error", pyLookupD c3w_research_empty "raw_response" PyVal.vnone)]),
         ConvTrace.mk
           ((if truthy (pyLookupD c3w_full "updated_fields" (PyVal.vlist []))
             then [("w", PyVal.vdict
               [("title", PyVal.vstr "Adaptive traffic light control"),
                ("objective_scope", PyVal.vstr "Reduce congestion at junctions"),
                ("process_description", PyVal.vstr "Simulation plus reinforcement")])] else []) ++
            [("w", PyVal.vdict (dictInsert (dictInsert
               [("title", PyVal.vstr "Adaptive traffic light control"),
                ("objective_scope", PyVal.vstr "Reduce congestion at junctions"),
                ("process_description", PyVal.vstr "Simulation plus reinforcement")]
               "auto_research_done" (PyVal.vbool true))
              "research_results"
              (PyVal.vdict [("error", pyLookupD c3w_research_empty "raw_response" PyVal.vnone)])))]) 1)) ∧
    (∃ m, run_turns "w" c3w_done_memory c3w_turns = Except.ok (m, 0) ∧
      truthy (pyLookupD m "auto_research_done" PyVal.vnone) = true) := by
  refine ⟨?_, ?_, ?_, ?_, ?_⟩
  · exact C3_amended_trigger_protocol.2.1 c3w_simple PyVal.vnone "w" [] [] rfl rfl rfl
  · exact C3_amended_trigger_protocol.2.2.1 c3w_full c3w_research_ok "w" []
      [("title", PyVal.vstr "Adaptive traffic light control"),
       ("objective_scope", PyVal.vstr "Reduce congestion at junctions"),
       ("process_description", PyVal.vstr "Simulation plus reinforcement")]
      rfl rfl rfl rfl
  · exact C3_amended_trigger_protocol.2.2.2.1 c3w_full c3w_research_bad "w" []
      [("title", PyVal.vstr "Adaptive traffic light control"),
       ("objective_scope", PyVal.vstr "Reduce congestion at junctions"),
       ("process_description", PyVal.vstr "Simulation plus reinforcement")]
      "Noted." rfl rfl rfl rfl rfl rfl rfl
  · exact C3_amended_trigger_protocol.2.2.2.2.1 c3w_full c3w_research_empty "w" []
      [("title", PyVal.vstr "Adaptive traffic light control"),
       ("objective_scope", PyVal.vstr "Reduce congestion at junctions"),
       ("process_description", PyVal.vstr "Simulation plus reinforcement")]
      rfl rfl rfl rfl rfl rfl
  · refine C3_amended_trigger_protocol.2.2.2.2.2 "w" c3w_turns c3w_done_memory rfl ?_
    intro t ht
    simp only [c3w_turns, List.mem_cons, List.mem_singleton] at ht
    rcases ht with h | h | h
    · subst h
      exact ⟨_, rfl, Or.inl rfl⟩
    · subst h
      exact ⟨_, rfl, Or.inr (Or.inl rfl)⟩
    · rcases h with h | h
      · subst h
        exact ⟨_, rfl, Or.inr (Or.inr ⟨_, rfl, rfl⟩)⟩
      · simp at h

end Aura
